import Mathlib

/-!
Smart irrigation controller (PIC16F877A): embedding of `Source_code.c`.

The C program is embedded as pure functions over an explicit `State` record
holding the C globals and the special-function-register bits the program
touches.  Conventions:

* `uint8_t` / `uint16_t` variables are `Nat` fields, arithmetic on them is
  reduced `% 256` / `% 65536` where the C code can wrap;
* `int` is the 16-bit signed type of the XC8 target and `long` the 32-bit one
  (`wrap16`, `wrap32`, `toInt16`);
* the level of the DHT11 data line is an input of the program: `line k` is the
  level seen by the `k`-th read of `DHT11_PIN` since start-up, and the field
  `polls` of the state counts the reads made so far.  Delays only separate
  two reads and are not represented otherwise;
* calls to the character display driver (`lcd.h`) are recorded, in order, in
  the field `lcd`;
* interrupts are served between two routines of the foreground, and, for
  `Update_Soil_Moisture_irq`, between the test of `adc_ready` and the
  clearing of `GIE`.
-/

namespace SmartIrrigation

/-! ## Data model -/

/-- Level of the DHT11 data line at each successive read of `DHT11_PIN`. -/
abbrev Line := Nat → Bool

/-- Modelled from the spec: `lcd.h` is not part of the sources; the display
adapter offers `clear()`, `setCursor(row, col)` and `printString(text)`, and
each call is recorded as one entry. -/
inductive LcdOp where
  | clear
  | set_cursor (row col : Nat)
  | print (text : List Char)
deriving DecidableEq, Repr

/-- The C globals (lines 31-45) and the hardware bits used by the program. -/
structure State where
  temperature : List Char
  humidity : List Char
  T_byte1 : Nat
  T_byte2 : Nat
  RH_byte1 : Nat
  RH_byte2 : Nat
  CheckSum : Nat
  dht_valid_data : Nat
  dht_error_state : Nat
  adc_value : Nat
  adc_ready : Nat
  moisture_value : Int
  moisture_text : List Char
  display_timer : Nat
  display_mode : Nat
  GIE : Nat
  PEIE : Nat
  ADIF : Nat
  TMR1IF : Nat
  ADRESH : Nat
  ADRESL : Nat
  GO_nDONE : Nat
  TRISB0 : Nat
  RB0 : Nat
  RELAY : Nat
  lcd : List LcdOp
  polls : Nat
deriving DecidableEq, Repr

/-- State after the static initialisers and the set-up code of `main`
(lines 287-308): relay released, interrupt flags cleared, first conversion
started, interrupts enabled. -/
def reset : State where
  temperature := "Temp = 00.0 C".toList
  humidity := "RH   = 00.0 %".toList
  T_byte1 := 0
  T_byte2 := 0
  RH_byte1 := 0
  RH_byte2 := 0
  CheckSum := 0
  dht_valid_data := 0
  dht_error_state := 0
  adc_value := 1023
  adc_ready := 0
  moisture_value := 0
  moisture_text := []
  display_timer := 0
  display_mode := 0
  GIE := 1
  PEIE := 1
  ADIF := 0
  TMR1IF := 0
  ADRESH := 0
  ADRESL := 0
  GO_nDONE := 1
  TRISB0 := 1
  RB0 := 0
  RELAY := 1
  lcd := [LcdOp.clear, LcdOp.set_cursor 1 1, LcdOp.print "Initializing...".toList]
  polls := 0

/-! ## Machine integers -/

/-- Value of a 16-bit two's-complement `int` holding the mathematical result `z`. -/
def wrap16 (z : Int) : Int := (z + 32768) % 65536 - 32768

/-- Value of a 32-bit two's-complement `long` holding the mathematical result `z`. -/
def wrap32 (z : Int) : Int := (z + 2147483648) % 4294967296 - 2147483648

/-- The cast `(int)` applied to a `uint16_t`. -/
def toInt16 (n : Nat) : Int := wrap16 (n % 65536 : Nat)

/-! ## Interrupt service routine (lines 58-77) -/

/-- One execution of `ISR`. -/
def ISR (s : State) : State :=
  let s :=
    if s.ADIF ≠ 0 then
      { s with
        adc_value := (((s.ADRESH <<< 8) % 65536) ||| s.ADRESL) % 65536
        adc_ready := 1
        ADIF := 0
        GO_nDONE := 1 }
    else s
  if s.TMR1IF ≠ 0 then
    let s := { s with display_timer := (s.display_timer + 1) % 65536 }
    let s :=
      if s.display_timer ≥ 5 then
        { s with display_timer := 0, display_mode := if s.display_mode = 0 then 1 else 0 }
      else s
    { s with TMR1IF := 0 }
  else s

/-! ## DHT11 single-wire decoder (lines 95-150, 162-207) -/

/-- `Start_Signal` (lines 95-102): drive the line low, then high, then release it. -/
def Start_Signal (s : State) : State :=
  let s := { s with TRISB0 := 0 }
  let s := { s with RB0 := 0 }
  let s := { s with RB0 := 1 }
  { s with TRISB0 := 1 }

/-- `Check_Response` (lines 104-114) started at read index `pos`: the returned
pair is the C return value and the read index after the call. -/
def Check_Response (line : Line) (pos : Nat) : Nat × Nat :=
  if line pos = false then
    if line (pos + 1) = true then (1, pos + 2)
    else (0, pos + 2)
  else (0, pos + 1)

/-- The two wait loops of `Read_Data`,
`while (DHT11_PIN == level) { timeout++; if (timeout > 100) return 1; }`,
entered with the given value of the 8-bit `timeout` at read index `pos`.
Result: `(1, timeout, pos)` when the loop executes `return 1`, and
`(0, timeout, pos)` when the loop condition becomes false. -/
def waitWhile (level : Bool) (line : Line) (timeout pos : Nat) : Nat × Nat × Nat :=
  if line pos = level then
    let timeout1 := (timeout + 1) % 256
    if h : 100 < timeout1 then (1, timeout1, pos + 1)
    else waitWhile level line timeout1 (pos + 1)
  else (0, timeout, pos + 1)
termination_by (if timeout ≤ 100 then 101 - timeout else 102)
decreasing_by
  simp_wf
  simp only [timeout1] at h
  split_ifs <;> omega

/-- The `for` loop of `Read_Data` (lines 121-147) entered with the given
`bitPosition`, content of `*dht_data` and read index.  Result: the C return
value, the final content of `*dht_data` and the read index. -/
def Read_Data_loop (line : Line) (bitPosition data pos : Nat) : Nat × Nat × Nat :=
  if h : bitPosition < 8 then
    let w := waitWhile false line 0 pos
    if w.1 = 1 then (1, data, w.2.2)
    else
      if line w.2.2 = true then
        let data1 := (data ||| (1 <<< (7 - bitPosition))) % 256
        let f := waitWhile true line 0 (w.2.2 + 1)
        if f.1 = 1 then (1, data1, f.2.2)
        else Read_Data_loop line ((bitPosition + 1) % 256) data1 f.2.2
      else Read_Data_loop line ((bitPosition + 1) % 256) data (w.2.2 + 1)
  else (0, data, pos)
termination_by 8 - bitPosition
decreasing_by
  all_goals simp_wf
  all_goals omega

/-- `Read_Data` (lines 116-150) started at read index `pos`: the C return
value, the byte left in `*dht_data` and the read index after the call. -/
def Read_Data (line : Line) (pos : Nat) : Nat × Nat × Nat :=
  Read_Data_loop line 0 0 pos

/-- The statement `if (!read_error) read_error = Read_Data(&v);` of lines
175-178, where `old` is the content of `v` before it: the new `read_error`,
the content of `v` afterwards and the read index afterwards. -/
def read_next (line : Line) (read_error old pos : Nat) : Nat × Nat × Nat :=
  if read_error = 0 then Read_Data line pos else (read_error, old, pos)

/-- Lines 174-178 of `Read_DHT11`: the five byte reads.  Returns the final
`read_error` and the state with the five byte variables and the read index
updated. -/
def Read_DHT11_payload (line : Line) (s : State) : Nat × State :=
  let r1 := Read_Data line s.polls
  let r2 := read_next line r1.1 s.RH_byte2 r1.2.2
  let r3 := read_next line r2.1 s.T_byte1 r2.2.2
  let r4 := read_next line r3.1 s.T_byte2 r3.2.2
  let r5 := read_next line r4.1 s.CheckSum r4.2.2
  (r5.1, { s with
    RH_byte1 := r1.2.1
    RH_byte2 := r2.2.1
    T_byte1 := r3.2.1
    T_byte2 := r4.2.1
    CheckSum := r5.2.1
    polls := r5.2.2 })

/-- Lines 186-191 of `Read_DHT11`: the six characters patched into the two
display strings (the right-hand sides are `int` values stored into a `char`). -/
def patch_strings (s : State) : State :=
  { s with
    temperature :=
      ((s.temperature.set 7 (Char.ofNat ((s.T_byte1 / 10 + 48) % 256))).set 8
        (Char.ofNat ((s.T_byte1 % 10 + 48) % 256))).set 10
        (Char.ofNat ((s.T_byte2 / 10 + 48) % 256))
    humidity :=
      ((s.humidity.set 7 (Char.ofNat ((s.RH_byte1 / 10 + 48) % 256))).set 8
        (Char.ofNat ((s.RH_byte1 % 10 + 48) % 256))).set 10
        (Char.ofNat ((s.RH_byte2 / 10 + 48) % 256)) }

/-- Lines 172-202 of `Read_DHT11`: everything between the saving and the
restoring of the interrupt enables, after `Start_Signal`. -/
def Read_DHT11_body (line : Line) (s : State) : State :=
  let c := Check_Response line s.polls
  let s := { s with polls := c.2 }
  if c.1 ≠ 0 then
    let p := Read_DHT11_payload line s
    let s := p.2
    if p.1 ≠ 0 then
      { s with dht_error_state := 2, dht_valid_data := 0 }
    else if s.CheckSum = ((s.RH_byte1 + s.RH_byte2 + s.T_byte1 + s.T_byte2) &&& 0xFF) then
      { patch_strings s with dht_valid_data := 1, dht_error_state := 0 }
    else
      { s with dht_valid_data := 0, dht_error_state := 3 }
  else
    { s with dht_valid_data := 0, dht_error_state := 1 }

/-- `Read_DHT11` (lines 162-207). -/
def Read_DHT11 (line : Line) (s : State) : State :=
  let saved_gie := s.GIE
  let saved_peie := s.PEIE
  let s := { s with GIE := 0, PEIE := 0 }
  let s := Start_Signal s
  let s := Read_DHT11_body line s
  { s with PEIE := saved_peie, GIE := saved_gie }

/-! ## Soil moisture (lines 152-160, 209-231) -/

/-- `map` (lines 152-156): the subtraction and the two differences are `int`
operations, the product, quotient and sum are `long` operations, the result is
cast back to `int`.  C division truncates toward zero. -/
def map (x in_min in_max out_min out_max : Int) : Int :=
  let x := if x < in_max then in_max else x
  let x := if x > in_min then in_min else x
  wrap16 (wrap32 (wrap32 (Int.tdiv (wrap32 (wrap16 (x - in_min) * wrap16 (out_max - out_min)))
    (wrap16 (in_max - in_min))) + out_min))

/-- The sample after the two clamping statements of `map`. -/
def clampRaw (x : Int) : Int := if x < 278 then 278 else if x > 1023 then 1023 else x

/-- Range check of an `int` intermediate: `none` when `z` does not fit 16 bits. -/
def chk16 (z : Int) : Option Int := if -32768 ≤ z ∧ z ≤ 32767 then some z else none

/-- Range check of a `long` intermediate: `none` when `z` does not fit 32 bits. -/
def chk32 (z : Int) : Option Int :=
  if -2147483648 ≤ z ∧ z ≤ 2147483647 then some z else none

/-- The computation of `map` (lines 152-156) with every intermediate result
checked: `none` as soon as a subtraction, the product, the quotient, the sum
or the final cast leaves the range of its C type, or the divisor is zero. -/
def map_checked (x in_min in_max out_min out_max : Int) : Option Int :=
  let x := if x < in_max then in_max else x
  let x := if x > in_min then in_min else x
  (chk16 (x - in_min)).bind fun d =>
  (chk16 (out_max - out_min)).bind fun r =>
  (chk32 (d * r)).bind fun p =>
  (chk16 (in_max - in_min)).bind fun dv =>
  if dv = 0 then none
  else
    (chk32 (Int.tdiv p dv)).bind fun q =>
    (chk32 (q + out_min)).bind fun t =>
    chk16 t

/-- `IntToStr` (lines 158-160): `sprintf(buffer, "%d%%", value)`. -/
def IntToStr (value : Int) : List Char :=
  (toString value).toList ++ [Char.ofNat 37]

/-- `Update_Soil_Moisture` (lines 209-231). -/
def Update_Soil_Moisture (s : State) : State :=
  if s.adc_ready ≠ 0 then
    let saved_gie := s.GIE
    let s := { s with GIE := 0 }
    let s := { s with moisture_value := map (toInt16 s.adc_value) 1023 278 0 100 }
    let s := { s with adc_ready := 0 }
    let s := if s.moisture_value > 100 then { s with moisture_value := 100 } else s
    let s := if s.moisture_value < 0 then { s with moisture_value := 0 } else s
    let s := if s.moisture_value < 40 then { s with RELAY := 0 } else { s with RELAY := 1 }
    let s := { s with moisture_text := IntToStr s.moisture_value }
    { s with GIE := saved_gie }
  else s

/-! ## Display rendering (lines 233-283) -/

/-- `Display_DHT11_Data` (lines 233-263). -/
def Display_DHT11_Data (s : State) : State :=
  let saved_gie := s.GIE
  let s := { s with GIE := 0 }
  let s := { s with lcd := s.lcd ++ [LcdOp.clear] }
  let s :=
    if s.dht_valid_data ≠ 0 then
      { s with lcd := s.lcd ++ [LcdOp.set_cursor 1 1, LcdOp.print s.temperature,
                                LcdOp.set_cursor 2 1, LcdOp.print s.humidity] }
    else
      let s := { s with lcd := s.lcd ++ [LcdOp.set_cursor 1 1] }
      if s.dht_error_state = 1 then
        { s with lcd := s.lcd ++ [LcdOp.print "No response".toList] }
      else if s.dht_error_state = 2 then
        { s with lcd := s.lcd ++ [LcdOp.print "Time out!".toList] }
      else if s.dht_error_state = 3 then
        { s with lcd := s.lcd ++ [LcdOp.print "Checksum error".toList] }
      else
        { s with lcd := s.lcd ++ [LcdOp.print "DHT11 Error".toList] }
  { s with GIE := saved_gie }

/-- `Display_Soil_Moisture` (lines 265-283). -/
def Display_Soil_Moisture (s : State) : State :=
  let saved_gie := s.GIE
  let s := { s with GIE := 0 }
  let s := { s with lcd := s.lcd ++ [LcdOp.clear] }
  let s := { s with lcd := s.lcd ++ [LcdOp.set_cursor 1 1, LcdOp.print "Moisture: ".toList,
                                    LcdOp.print s.moisture_text] }
  let s := { s with lcd := s.lcd ++ [LcdOp.set_cursor 2 1] }
  let s :=
    if s.RELAY ≠ 0 then { s with lcd := s.lcd ++ [LcdOp.print "Pump: OFF".toList] }
    else { s with lcd := s.lcd ++ [LcdOp.print "Pump: ON".toList] }
  { s with GIE := saved_gie }

/-! ## Interrupts as seen from the foreground -/

/-- The hardware posts a conversion result in `ADRESH:ADRESL` (when `adif`)
and raises the requested flags of `PIR1`, then `ISR` runs. -/
def hw_interrupt (adif tmr1if : Bool) (adresh adresl : Nat) (s : State) : State :=
  ISR { s with
    ADIF := if adif then 1 else s.ADIF
    TMR1IF := if tmr1if then 1 else s.TMR1IF
    ADRESH := if adif then adresh else s.ADRESH
    ADRESL := if adif then adresl else s.ADRESL }

/-- One completed conversion with result `adresh:adresl`, followed by the
evaluation of the main loop. -/
def feed_sample (r : Nat × Nat) (s : State) : State :=
  Update_Soil_Moisture (hw_interrupt true false r.1 r.2 s)

/-! ## Runs of the system -/

/-- What can happen between two observations of the state: an interrupt
(conversion complete and/or timer tick) served by `ISR`, or one of the four
foreground routines called by the main loop. -/
inductive Event where
  | interrupt (adif tmr1if : Bool) (adresh adresl : Nat)
  | decode
  | evaluate
  | render_dht
  | render_soil
deriving DecidableEq, Repr

/-- Effect of one event. -/
def step (line : Line) (s : State) : Event → State
  | Event.interrupt adif tmr1if adresh adresl => hw_interrupt adif tmr1if adresh adresl s
  | Event.decode => Read_DHT11 line s
  | Event.evaluate => Update_Soil_Moisture s
  | Event.render_dht => Display_DHT11_Data s
  | Event.render_soil => Display_Soil_Moisture s

/-- Effect of a sequence of events, oldest first. -/
def run (line : Line) (s : State) (es : List Event) : State :=
  es.foldl (step line) s

/-- Whether the event is an interrupt in which the timer flag is raised. -/
def Event.is_tick : Event → Bool
  | Event.interrupt _ tmr1if _ _ => tmr1if
  | _ => false

/-- Number of timer-tick interrupts in a sequence of events. -/
def ticks (es : List Event) : Nat :=
  (es.filter Event.is_tick).length

/-! ## Reading the decoder's results -/

/-- The five payload byte variables, in the order they are read. -/
def payload_bytes (s : State) : List Nat :=
  [s.RH_byte1, s.RH_byte2, s.T_byte1, s.T_byte2, s.CheckSum]

/-- State of `Read_DHT11` when it calls `Check_Response` (lines 166-171). -/
def started (s : State) : State := Start_Signal { s with GIE := 0, PEIE := 0 }

/-- Numeric value of a character read as a decimal digit. -/
def digit_value (c : Char) : Nat := c.toNat - 48

/-- The two-digit number displayed at positions 7 and 8 of a display string. -/
def shown_integral (str : List Char) : Nat :=
  digit_value (str.getD 7 ' ') * 10 + digit_value (str.getD 8 ' ')

/-- The digit displayed at position 10 of a display string. -/
def shown_fraction (str : List Char) : Nat := digit_value (str.getD 10 ' ')

/-- Whether position `i` of a display string holds a decimal digit. -/
def is_digit_at (str : List Char) (i : Nat) : Bool := (str.getD i ' ').isDigit

/-! ## Line behaviours used as concrete inputs -/

/-- Samples seen while a sensor sends the byte `v`, most significant bit
first, when every wait succeeds at its first poll: per bit, high (the rise),
then the sampled level (high for 1, low for 0), then for a 1 low (the fall). -/
def byte_wave (v : Nat) : List Bool :=
  (List.range 8).flatMap fun k => if v.testBit (7 - k) then [true, true, false] else [true, false]

/-- Samples seen for a whole exchange: the response pulse (low, then high)
followed by the bytes. -/
def frame_wave (bytes : List Nat) : List Bool :=
  [false, true] ++ bytes.flatMap byte_wave

/-- The line that shows the given samples and then stays low. -/
def line_of (w : List Bool) : Line := fun k => w.getD k false

/-- Humidity 45.5, temperature 23.7, correct checksum 80. -/
def line_a : Line := line_of (frame_wave [45, 5, 23, 7, 80])

/-- Humidity byte 100, correct checksum 105. -/
def line_b : Line := line_of (frame_wave [100, 5, 0, 0, 105])

/-- Bytes 200, 100, 0, 0 (sum 300, truncated to 44) with checksum byte 45. -/
def line_c : Line := line_of (frame_wave [200, 100, 0, 0, 45])

/-! ## Line behaviours of one bit cell -/

/-- The line lets one bit be read from read index `q` up to read index `q2`:
at most 100 polls see it low before it is seen high; the sample taken next
is low (a 0), or it is high (a 1) and at most 100 further polls see it high
before it is seen low. -/
def bit_read_ok (line : Line) (q q2 : Nat) : Prop :=
  ∃ r, r ≤ 100 ∧ (∀ j, j < r → line (q + j) = false) ∧ line (q + r) = true ∧
    ((line (q + r + 1) = false ∧ q2 = q + r + 2) ∨
     (line (q + r + 1) = true ∧
      ∃ f, f ≤ 100 ∧ (∀ j, j < f → line (q + r + 2 + j) = true) ∧
        line (q + r + 2 + f) = false ∧ q2 = q + r + f + 3))

/-- In the bit cell starting at read index `q` a wait sees more than 100
consecutive unsuccessful polls: 101 polls see the line low while its rise is
awaited, or the rise and a sampled 1 are followed by 101 polls that see the
line high while its fall is awaited. -/
def wait_exceeds (line : Line) (q : Nat) : Prop :=
  (∀ j, j ≤ 100 → line (q + j) = false) ∨
  ∃ r, r ≤ 100 ∧ (∀ j, j < r → line (q + j) = false) ∧ line (q + r) = true ∧
    line (q + r + 1) = true ∧ ∀ j, j ≤ 100 → line (q + r + 2 + j) = true

/-- The line lets `n` successive bits be read from read index `q` up to `q2`. -/
def bits_read_ok (line : Line) : Nat → Nat → Nat → Prop
  | 0, q, q2 => q2 = q
  | n + 1, q, q2 => ∃ m, bit_read_ok line q m ∧ bits_read_ok line n m q2

/-- The line lets `n` successive bytes be read from read index `q` up to `q2`. -/
def bytes_read_ok (line : Line) : Nat → Nat → Nat → Prop
  | 0, q, q2 => q2 = q
  | n + 1, q, q2 => ∃ m, bits_read_ok line 8 q m ∧ bytes_read_ok line n m q2

/-- The sensor answers the start signal, sends the byte 45 and one further
bit, and then leaves the line low. -/
def line_d : Line := line_of (frame_wave [45] ++ [true, false])

/-! ## The main loop (lines 308-330) -/

/-- One interrupt request: which flags of `PIR1` the hardware raises and, for
a completed conversion, the result registers. -/
structure Irq where
  adif : Bool
  tmr1if : Bool
  adresh : Nat
  adresl : Nat
deriving DecidableEq, Repr

/-- The interrupts of a list are served one after the other. -/
def serve (irqs : List Irq) (s : State) : State :=
  irqs.foldl (fun s i => hw_interrupt i.adif i.tmr1if i.adresh i.adresl s) s

/-- The interrupts served during one iteration of the main loop, by the place
where they arrive: before `Update_Soil_Moisture`, before the decision to
decode, before the rendering, and during the final delay. -/
structure IterationIrqs where
  before_update : List Irq
  before_decode : List Irq
  before_render : List Irq
  in_delay : List Irq
deriving DecidableEq, Repr

/-- Lines 312-320 of `main`, up to the choice of the view: `c` is
`dht_read_counter` on entry.  Returns whether `Read_DHT11` was called, the
counter afterwards and the state in which `display_mode` is tested. -/
def loop_to_render (line : Line) (q : IterationIrqs) (c : Nat) (s : State) :
    Bool × Nat × State :=
  let s := serve q.before_update s
  let s := Update_Soil_Moisture s
  let c := (c + 1) % 256
  let s := serve q.before_decode s
  if c ≥ 10 then (true, 0, serve q.before_render (Read_DHT11 line s))
  else (false, c, serve q.before_render s)

/-- One iteration of the `while (1)` loop of `main` (lines 310-330). -/
def main_iteration (line : Line) (q : IterationIrqs) (c : Nat) (s : State) :
    Bool × Nat × State :=
  let r := loop_to_render line q c s
  let s := r.2.2
  let s := if s.display_mode = 0 then Display_DHT11_Data s else Display_Soil_Moisture s
  (r.1, r.2.1, serve q.in_delay s)

/-- Counter `dht_read_counter` and state after `n` iterations of the main
loop started in state `s0` with the counter at 0 (line 308); `env k` gives
the interrupts of iteration `k`. -/
def main_loop (line : Line) (env : Nat → IterationIrqs) (s0 : State) : Nat → Nat × State
  | 0 => (0, s0)
  | n + 1 =>
    let p := main_loop line env s0 n
    let r := main_iteration line (env (n + 1)) p.1 p.2
    (r.2.1, r.2.2)

/-- The state in which `dht_read_counter >= 10` is tested (line 316) in an
iteration entered in state `s`: after `Update_Soil_Moisture` and the
interrupts served before and after it. -/
def state_at_test (q : IterationIrqs) (s : State) : State :=
  serve q.before_decode (Update_Soil_Moisture (serve q.before_update s))

/-- The critical section of `Update_Soil_Moisture` (lines 211-229), entered
once the test of `adc_ready` has succeeded. -/
def Update_critical_section (s : State) : State :=
  let saved_gie := s.GIE
  let s := { s with GIE := 0 }
  let s := { s with moisture_value := map (toInt16 s.adc_value) 1023 278 0 100 }
  let s := { s with adc_ready := 0 }
  let s := if s.moisture_value > 100 then { s with moisture_value := 100 } else s
  let s := if s.moisture_value < 0 then { s with moisture_value := 0 } else s
  let s := if s.moisture_value < 40 then { s with RELAY := 0 } else { s with RELAY := 1 }
  let s := { s with moisture_text := IntToStr s.moisture_value }
  { s with GIE := saved_gie }

/-- `Update_Soil_Moisture` (lines 209-231) with the interrupts that are served
between the test of `adc_ready` (line 210) and the clearing of `GIE`
(line 212) made explicit; they are served only if the test succeeded and both
`GIE` and `PEIE` are set. -/
def Update_Soil_Moisture_irq (irqs : List Irq) (s : State) : State :=
  if s.adc_ready ≠ 0 then
    Update_critical_section (if s.GIE ≠ 0 ∧ s.PEIE ≠ 0 then serve irqs s else s)
  else s

/-! ## Line behaviour of a transmitted byte -/

/-- The line presents the bit `b` in the cell read from index `q` up to `q2`:
it is seen high after at most 100 polls that see it low; at the next sample
it is low for a 0, and high for a 1, in which case it is seen low after at
most 100 further polls that see it high. -/
def bit_sent (line : Line) (q : Nat) (b : Bool) (q2 : Nat) : Prop :=
  ∃ r, r ≤ 100 ∧ (∀ j, j < r → line (q + j) = false) ∧ line (q + r) = true ∧
    ((b = false ∧ line (q + r + 1) = false ∧ q2 = q + r + 2) ∨
     (b = true ∧ line (q + r + 1) = true ∧
      ∃ f, f ≤ 100 ∧ (∀ j, j < f → line (q + r + 2 + j) = true) ∧
        line (q + r + 2 + f) = false ∧ q2 = q + r + f + 3))

/-- The line presents the `n` low-order bits of `v`, from bit `n - 1` down to
bit 0, in the cells read from index `q` up to `q2`. -/
def bits_sent (line : Line) (v : Nat) : Nat → Nat → Nat → Prop
  | 0, q, q2 => q2 = q
  | n + 1, q, q2 => ∃ m, bit_sent line q (v.testBit n) m ∧ bits_sent line v n m q2

end SmartIrrigation

namespace SmartIrrigation

/-! ## Moisture evaluation: arithmetic -/

theorem wrap16_id {z : Int} (h1 : -32768 ≤ z) (h2 : z ≤ 32767) : wrap16 z = z := by
  unfold wrap16; omega

theorem wrap32_id {z : Int} (h1 : -2147483648 ≤ z) (h2 : z ≤ 2147483647) : wrap32 z = z := by
  unfold wrap32; omega

theorem chk16_id {z : Int} (h1 : -32768 ≤ z) (h2 : z ≤ 32767) : chk16 z = some z := by
  unfold chk16; rw [if_pos ⟨h1, h2⟩]

theorem chk32_id {z : Int} (h1 : -2147483648 ≤ z) (h2 : z ≤ 2147483647) :
    chk32 z = some z := by
  unfold chk32; rw [if_pos ⟨h1, h2⟩]

theorem tdiv_neg_neg (a : Int) (h : 0 ≤ a) : Int.tdiv (-a) (-745) = a / 745 := by
  rw [show (-745 : Int) = -(745 : Int) from rfl, Int.tdiv_neg, Int.neg_tdiv, neg_neg]
  exact Int.tdiv_eq_ediv h (by norm_num)

theorem clampRaw_range (x : Int) : 278 ≤ clampRaw x ∧ clampRaw x ≤ 1023 := by
  unfold clampRaw; split_ifs <;> omega

theorem map_core (y : Int) (h1 : 278 ≤ y) (h2 : y ≤ 1023) :
    wrap16 (wrap32 (wrap32 (Int.tdiv (wrap32 (wrap16 (y - 1023) * wrap16 (100 - 0)))
      (wrap16 (278 - 1023))) + 0)) = (1023 - y) * 100 / 745 := by
  rw [wrap16_id (z := y - 1023) (by omega) (by omega),
    wrap16_id (z := 100 - 0) (by norm_num) (by norm_num),
    wrap16_id (z := 278 - 1023) (by norm_num) (by norm_num),
    wrap32_id (z := (y - 1023) * (100 - 0)) (by omega) (by omega)]
  have e : (y - 1023) * (100 - 0) = -((1023 - y) * 100) := by ring
  rw [e, show (278 - 1023 : Int) = -745 by norm_num, tdiv_neg_neg _ (by omega)]
  have hq : 0 ≤ (1023 - y) * 100 / 745 ∧ (1023 - y) * 100 / 745 ≤ 100 := by omega
  rw [wrap32_id (z := (1023 - y) * 100 / 745) (by omega) (by omega), add_zero,
    wrap32_id (by omega) (by omega), wrap16_id (by omega) (by omega)]

/-- Closed form of the call `map(x, 1023, 278, 0, 100)`. -/
theorem map_clamped (x : Int) :
    map x 1023 278 0 100 = (1023 - clampRaw x) * 100 / 745 := by
  unfold map clampRaw
  by_cases h1 : x < 278
  · simp only [h1, if_true]
    rw [if_neg (by norm_num)]
    exact map_core 278 (by norm_num) (by norm_num)
  · simp only [h1, if_false]
    by_cases h2 : x > 1023
    · simp only [h2, if_true]
      exact map_core 1023 (by norm_num) (by norm_num)
    · simp only [h2, if_false]
      exact map_core x (by omega) (by omega)

theorem map_range (x : Int) : 0 ≤ map x 1023 278 0 100 ∧ map x 1023 278 0 100 ≤ 100 := by
  rw [map_clamped]
  have h := clampRaw_range x
  omega

theorem map_checked_core (y : Int) (h1 : 278 ≤ y) (h2 : y ≤ 1023) :
    ((chk16 (y - 1023)).bind fun d =>
      (chk16 (100 - 0)).bind fun r =>
      (chk32 (d * r)).bind fun p =>
      (chk16 (278 - 1023)).bind fun dv =>
      if dv = 0 then none
      else
        (chk32 (Int.tdiv p dv)).bind fun q =>
        (chk32 (q + 0)).bind fun t =>
        chk16 t) = some ((1023 - y) * 100 / 745) := by
  have e : (y - 1023) * (100 - 0) = -((1023 - y) * 100) := by ring
  have hq : 0 ≤ (1023 - y) * 100 / 745 ∧ (1023 - y) * 100 / 745 ≤ 100 := by omega
  rw [chk16_id (z := y - 1023) (by omega) (by omega), Option.some_bind,
    chk16_id (z := 100 - 0) (by norm_num) (by norm_num), Option.some_bind,
    chk32_id (z := (y - 1023) * (100 - 0)) (by omega) (by omega), Option.some_bind,
    chk16_id (z := 278 - 1023) (by norm_num) (by norm_num), Option.some_bind,
    if_neg (by norm_num), e, show (278 - 1023 : Int) = -745 by norm_num,
    tdiv_neg_neg _ (by omega),
    chk32_id (z := (1023 - y) * 100 / 745) (by omega) (by omega), Option.some_bind, add_zero,
    chk32_id (by omega) (by omega), Option.some_bind, chk16_id (by omega) (by omega)]

/-- The checked computation never fails on the call made by
`Update_Soil_Moisture` and agrees with `map`. -/
theorem map_checked_soil (x : Int) :
    map_checked x 1023 278 0 100 = some (map x 1023 278 0 100) := by
  rw [map_clamped]
  unfold map_checked clampRaw
  by_cases h1 : x < 278
  · simp only [h1, if_true]
    rw [if_neg (by norm_num)]
    exact map_checked_core 278 (by norm_num) (by norm_num)
  · simp only [h1, if_false]
    by_cases h2 : x > 1023
    · simp only [h2, if_true]
      exact map_checked_core 1023 (by norm_num) (by norm_num)
    · simp only [h2, if_false]
      exact map_checked_core x (by omega) (by omega)

/-- Effect of `Update_Soil_Moisture` on a ready sample, field by field. -/
theorem Update_Soil_Moisture_ready (s : State) (h : s.adc_ready ≠ 0) :
    Update_Soil_Moisture s =
      { s with
        moisture_value := map (toInt16 s.adc_value) 1023 278 0 100
        adc_ready := 0
        RELAY := if map (toInt16 s.adc_value) 1023 278 0 100 < 40 then 0 else 1
        moisture_text := IntToStr (map (toInt16 s.adc_value) 1023 278 0 100) } := by
  have hr := map_range (toInt16 s.adc_value)
  unfold Update_Soil_Moisture
  rw [if_pos h]
  dsimp only
  rw [if_neg (not_lt.mpr hr.2), if_neg (not_lt.mpr hr.1)]
  split_ifs <;> rfl

theorem Update_moisture_value (s : State) (h : s.adc_ready ≠ 0) :
    (Update_Soil_Moisture s).moisture_value = map (toInt16 s.adc_value) 1023 278 0 100 := by
  rw [Update_Soil_Moisture_ready s h]

theorem Update_RELAY (s : State) (h : s.adc_ready ≠ 0) :
    (Update_Soil_Moisture s).RELAY
      = if map (toInt16 s.adc_value) 1023 278 0 100 < 40 then 0 else 1 := by
  rw [Update_Soil_Moisture_ready s h]

theorem Update_adc_ready (s : State) (h : s.adc_ready ≠ 0) :
    (Update_Soil_Moisture s).adc_ready = 0 := by
  rw [Update_Soil_Moisture_ready s h]

theorem toInt16_small {n : Nat} (h : n ≤ 32767) : toInt16 n = n := by
  unfold toInt16 wrap16; omega

theorem toInt16_large {n : Nat} (h1 : 32768 ≤ n) (h2 : n < 65536) :
    toInt16 n = (n : Int) - 65536 := by
  unfold toInt16 wrap16; omega

/-! ## Moisture evaluation: end-to-end properties -/

/-- C3 (as stated, refuted): with a ready sample `adc_value = 650` the exact
linear formula gives `moisture_value = 50`, not 47, and the relay line is
driven high (pump off), not low. -/
theorem sample_650_is_not_47_on :
    (Update_Soil_Moisture { reset with adc_ready := 1, adc_value := 650 }).moisture_value = 50 ∧
    (Update_Soil_Moisture { reset with adc_ready := 1, adc_value := 650 }).moisture_value ≠ 47 ∧
    (Update_Soil_Moisture { reset with adc_ready := 1, adc_value := 650 }).RELAY = 1 ∧
    (Update_Soil_Moisture { reset with adc_ready := 1, adc_value := 650 }).RELAY ≠ 0 := by
  decide

/-- C3 (amended): whenever `Update_Soil_Moisture` consumes a ready sample with
`adc_value = 650`, it leaves `moisture_value = 50` (the truncated value of
`(1023 - 650) * 100 / 745`) and the actuator off (`RELAY = 1`). -/
theorem sample_650_gives_50_off (s : State) (hready : s.adc_ready ≠ 0)
    (hraw : s.adc_value = 650) :
    (Update_Soil_Moisture s).moisture_value = 50 ∧
    (Update_Soil_Moisture s).moisture_value = (1023 - 650) * 100 / 745 ∧
    (Update_Soil_Moisture s).RELAY = 1 ∧
    (Update_Soil_Moisture s).adc_ready = 0 := by
  rw [Update_moisture_value s hready, Update_RELAY s hready, Update_adc_ready s hready, hraw]
  decide

theorem sample_650_gives_50_off_witness :
    ({ reset with adc_ready := 1, adc_value := 650 } : State).adc_ready ≠ 0 ∧
    ({ reset with adc_ready := 1, adc_value := 650 } : State).adc_value = 650 ∧
    ((Update_Soil_Moisture { reset with adc_ready := 1, adc_value := 650 }).moisture_value = 50 ∧
     (Update_Soil_Moisture { reset with adc_ready := 1, adc_value := 650 }).moisture_value
        = (1023 - 650) * 100 / 745 ∧
     (Update_Soil_Moisture { reset with adc_ready := 1, adc_value := 650 }).RELAY = 1 ∧
     (Update_Soil_Moisture { reset with adc_ready := 1, adc_value := 650 }).adc_ready = 0) :=
  ⟨by decide, by decide,
    sample_650_gives_50_off { reset with adc_ready := 1, adc_value := 650 } (by decide) (by decide)⟩

/-- C4: at the endpoints of the calibrated domain a consumed ready sample of
278 gives `moisture_value = 100` with the actuator off (`RELAY = 1`), and a
consumed ready sample of 1023 gives `moisture_value = 0` with the actuator on
(`RELAY = 0`). -/
theorem endpoints_end_to_end (wet dry : State)
    (hwet_ready : wet.adc_ready ≠ 0) (hwet : wet.adc_value = 278)
    (hdry_ready : dry.adc_ready ≠ 0) (hdry : dry.adc_value = 1023) :
    ((Update_Soil_Moisture wet).moisture_value = 100 ∧ (Update_Soil_Moisture wet).RELAY = 1) ∧
    ((Update_Soil_Moisture dry).moisture_value = 0 ∧ (Update_Soil_Moisture dry).RELAY = 0) := by
  rw [Update_moisture_value wet hwet_ready, Update_RELAY wet hwet_ready,
    Update_moisture_value dry hdry_ready, Update_RELAY dry hdry_ready, hwet, hdry]
  decide

theorem endpoints_end_to_end_witness :
    ({ reset with adc_ready := 1, adc_value := 278 } : State).adc_ready ≠ 0 ∧
    ({ reset with adc_ready := 1, adc_value := 278 } : State).adc_value = 278 ∧
    ({ reset with adc_ready := 1 } : State).adc_ready ≠ 0 ∧
    ({ reset with adc_ready := 1 } : State).adc_value = 1023 ∧
    (((Update_Soil_Moisture { reset with adc_ready := 1, adc_value := 278 }).moisture_value = 100 ∧
      (Update_Soil_Moisture { reset with adc_ready := 1, adc_value := 278 }).RELAY = 1) ∧
     ((Update_Soil_Moisture { reset with adc_ready := 1 }).moisture_value = 0 ∧
      (Update_Soil_Moisture { reset with adc_ready := 1 }).RELAY = 0)) :=
  ⟨by decide, by decide, by decide, by decide,
    endpoints_end_to_end { reset with adc_ready := 1, adc_value := 278 } { reset with adc_ready := 1 }
      (by decide) (by decide) (by decide) (by decide)⟩

/-- C5 (as stated, refuted): over the whole range of the 16-bit `adc_value`
the mapping is not monotone.  The sample 2000 gives 0 %, while the larger
sample 40000 is read as the negative `int` -25536 by the cast and gives 100 %. -/
theorem moisture_not_monotone_on_uint16 :
    ({ reset with adc_ready := 1, adc_value := 2000 } : State).adc_value
      ≤ ({ reset with adc_ready := 1, adc_value := 40000 } : State).adc_value ∧
    ({ reset with adc_ready := 1, adc_value := 40000 } : State).adc_value < 65536 ∧
    toInt16 40000 = -25536 ∧
    (Update_Soil_Moisture { reset with adc_ready := 1, adc_value := 2000 }).moisture_value = 0 ∧
    (Update_Soil_Moisture { reset with adc_ready := 1, adc_value := 40000 }).moisture_value = 100 ∧
    ¬ ((Update_Soil_Moisture { reset with adc_ready := 1, adc_value := 40000 }).moisture_value
        ≤ (Update_Soil_Moisture { reset with adc_ready := 1, adc_value := 2000 }).moisture_value) := by
  decide

/-- C5 (amended): the mapping is monotonically non-increasing over the raw
values 0..32767, those the 16-bit `(int)` cast leaves non-negative (every
10-bit conversion result, and the values below 278 and above 1023 up to
32767): for ready samples `r1 ≤ r2 ≤ 32767` the `moisture_value` computed from
`r1` is at least the one computed from `r2`. -/
theorem moisture_antitone_below_32768 (s1 s2 : State)
    (h1 : s1.adc_ready ≠ 0) (h2 : s2.adc_ready ≠ 0)
    (hle : s1.adc_value ≤ s2.adc_value) (hmax : s2.adc_value ≤ 32767) :
    (Update_Soil_Moisture s2).moisture_value ≤ (Update_Soil_Moisture s1).moisture_value := by
  rw [Update_moisture_value s1 h1, Update_moisture_value s2 h2]
  rw [map_clamped, map_clamped, toInt16_small hmax, toInt16_small (le_trans hle hmax)]
  have hc : clampRaw (s1.adc_value : Int) ≤ clampRaw (s2.adc_value : Int) := by
    have : (s1.adc_value : Int) ≤ (s2.adc_value : Int) := by exact_mod_cast hle
    unfold clampRaw
    split_ifs <;> omega
  have r1 := clampRaw_range (s1.adc_value : Int)
  have r2 := clampRaw_range (s2.adc_value : Int)
  omega

theorem moisture_antitone_below_32768_witness :
    ({ reset with adc_ready := 1, adc_value := 500 } : State).adc_ready ≠ 0 ∧
    ({ reset with adc_ready := 1, adc_value := 2000 } : State).adc_ready ≠ 0 ∧
    ({ reset with adc_ready := 1, adc_value := 500 } : State).adc_value
      ≤ ({ reset with adc_ready := 1, adc_value := 2000 } : State).adc_value ∧
    ({ reset with adc_ready := 1, adc_value := 2000 } : State).adc_value ≤ 32767 ∧
    (Update_Soil_Moisture { reset with adc_ready := 1, adc_value := 2000 }).moisture_value
      ≤ (Update_Soil_Moisture { reset with adc_ready := 1, adc_value := 500 }).moisture_value :=
  ⟨by decide, by decide, by decide, by decide,
    moisture_antitone_below_32768 { reset with adc_ready := 1, adc_value := 500 }
      { reset with adc_ready := 1, adc_value := 2000 } (by decide) (by decide) (by decide)
      (by decide)⟩

/-- C6: for every content of the 16-bit `adc_value`, the `moisture_value` left
by `Update_Soil_Moisture` after consuming the sample lies in [0,100]; it is
the value of `map`, whose checked evaluation succeeds: no subtraction, product,
quotient, sum or cast leaves the range of its type and the divisor -745 is
not zero. -/
theorem moisture_in_range_no_overflow (s : State) (hready : s.adc_ready ≠ 0) :
    0 ≤ (Update_Soil_Moisture s).moisture_value ∧
    (Update_Soil_Moisture s).moisture_value ≤ 100 ∧
    map_checked (toInt16 s.adc_value) 1023 278 0 100
      = some (Update_Soil_Moisture s).moisture_value ∧
    wrap16 (278 - 1023) = -745 := by
  rw [Update_moisture_value s hready]
  have hr := map_range (toInt16 s.adc_value)
  exact ⟨hr.1, hr.2, map_checked_soil _, by decide⟩

theorem moisture_in_range_no_overflow_witness :
    ({ reset with adc_ready := 1, adc_value := 65535 } : State).adc_ready ≠ 0 ∧
    (0 ≤ (Update_Soil_Moisture { reset with adc_ready := 1, adc_value := 65535 }).moisture_value ∧
     (Update_Soil_Moisture { reset with adc_ready := 1, adc_value := 65535 }).moisture_value ≤ 100 ∧
     map_checked (toInt16 ({ reset with adc_ready := 1, adc_value := 65535 } : State).adc_value)
        1023 278 0 100
      = some (Update_Soil_Moisture { reset with adc_ready := 1, adc_value := 65535 }).moisture_value ∧
     wrap16 (278 - 1023) = -745) :=
  ⟨by decide, moisture_in_range_no_overflow { reset with adc_ready := 1, adc_value := 65535 }
    (by decide)⟩


theorem hw_interrupt_adc_ready (h l : Nat) (s : State) :
    (hw_interrupt true false h l s).adc_ready ≠ 0 := by
  unfold hw_interrupt ISR
  dsimp only
  split_ifs <;> simp_all

theorem Read_DHT11_display (line : Line) (s : State) :
    (Read_DHT11 line s).display_timer = s.display_timer ∧
    (Read_DHT11 line s).display_mode = s.display_mode ∧
    (Read_DHT11 line s).TMR1IF = s.TMR1IF := by
  unfold Read_DHT11 Read_DHT11_body Read_DHT11_payload patch_strings Start_Signal
  dsimp only
  split_ifs <;> exact ⟨rfl, rfl, rfl⟩

theorem Update_display (s : State) :
    (Update_Soil_Moisture s).display_timer = s.display_timer ∧
    (Update_Soil_Moisture s).display_mode = s.display_mode ∧
    (Update_Soil_Moisture s).TMR1IF = s.TMR1IF := by
  unfold Update_Soil_Moisture
  dsimp only
  split_ifs <;> exact ⟨rfl, rfl, rfl⟩

theorem Display_DHT11_display (s : State) :
    (Display_DHT11_Data s).display_timer = s.display_timer ∧
    (Display_DHT11_Data s).display_mode = s.display_mode ∧
    (Display_DHT11_Data s).TMR1IF = s.TMR1IF := by
  unfold Display_DHT11_Data
  dsimp only
  split_ifs <;> exact ⟨rfl, rfl, rfl⟩

theorem Display_Soil_display (s : State) :
    (Display_Soil_Moisture s).display_timer = s.display_timer ∧
    (Display_Soil_Moisture s).display_mode = s.display_mode ∧
    (Display_Soil_Moisture s).TMR1IF = s.TMR1IF := by
  unfold Display_Soil_Moisture
  dsimp only
  split_ifs <;> exact ⟨rfl, rfl, rfl⟩

theorem interrupt_no_tick (adif : Bool) (h l : Nat) (s : State) (h0 : s.TMR1IF = 0) :
    (hw_interrupt adif false h l s).display_timer = s.display_timer ∧
    (hw_interrupt adif false h l s).display_mode = s.display_mode ∧
    (hw_interrupt adif false h l s).TMR1IF = 0 := by
  unfold hw_interrupt ISR
  dsimp only
  split_ifs <;> simp_all

theorem interrupt_tick (adif : Bool) (h l : Nat) (s : State) (ht : s.display_timer < 5) :
    (hw_interrupt adif true h l s).display_timer
      = (if s.display_timer = 4 then 0 else s.display_timer + 1) ∧
    (hw_interrupt adif true h l s).display_mode
      = (if s.display_timer = 4 then (if s.display_mode = 0 then 1 else 0) else s.display_mode) ∧
    (hw_interrupt adif true h l s).TMR1IF = 0 := by
  unfold hw_interrupt ISR
  dsimp only
  have e : (s.display_timer + 1) % 65536 = s.display_timer + 1 := by omega
  split_ifs <;> simp_all <;> omega


theorem step_no_tick (line : Line) (s : State) (e : Event) (h0 : s.TMR1IF = 0)
    (he : e.is_tick = false) :
    (step line s e).display_timer = s.display_timer ∧
    (step line s e).display_mode = s.display_mode ∧
    (step line s e).TMR1IF = 0 := by
  cases e with
  | interrupt adif tmr1if adresh adresl =>
    have : tmr1if = false := he
    subst this
    exact interrupt_no_tick adif adresh adresl s h0
  | decode => have h := Read_DHT11_display line s; exact ⟨h.1, h.2.1, h.2.2.trans h0⟩
  | evaluate => have h := Update_display s; exact ⟨h.1, h.2.1, h.2.2.trans h0⟩
  | render_dht => have h := Display_DHT11_display s; exact ⟨h.1, h.2.1, h.2.2.trans h0⟩
  | render_soil => have h := Display_Soil_display s; exact ⟨h.1, h.2.1, h.2.2.trans h0⟩

theorem step_tick (line : Line) (s : State) (e : Event) (ht : s.display_timer < 5)
    (he : e.is_tick = true) :
    (step line s e).display_timer
      = (if s.display_timer = 4 then 0 else s.display_timer + 1) ∧
    (step line s e).display_mode
      = (if s.display_timer = 4 then (if s.display_mode = 0 then 1 else 0) else s.display_mode) ∧
    (step line s e).TMR1IF = 0 := by
  cases e with
  | interrupt adif tmr1if adresh adresl =>
    have : tmr1if = true := he
    subst this
    exact interrupt_tick adif adresh adresl s ht
  | decode => exact absurd he (by decide)
  | evaluate => exact absurd he (by decide)
  | render_dht => exact absurd he (by decide)
  | render_soil => exact absurd he (by decide)

theorem ticks_cons (e : Event) (es : List Event) :
    ticks (e :: es) = (if e.is_tick then 1 else 0) + ticks es := by
  unfold ticks
  by_cases h : e.is_tick = true
  · rw [List.filter_cons_of_pos h, if_pos h, List.length_cons]; omega
  · rw [List.filter_cons_of_neg h, if_neg h]; omega

/-- Invariant of the display schedule, started after `n` ticks. -/
theorem run_display (line : Line) (es : List Event) :
    ∀ (s : State) (n : Nat), s.display_timer = n % 5 → s.display_mode = (n / 5) % 2 →
      s.TMR1IF = 0 →
      (run line s es).display_timer = (n + ticks es) % 5 ∧
      (run line s es).display_mode = ((n + ticks es) / 5) % 2 ∧
      (run line s es).TMR1IF = 0 := by
  induction es with
  | nil => intro s n h1 h2 h3; exact ⟨by simpa [run, ticks] using h1, by simpa [run, ticks] using h2, h3⟩
  | cons e es ih =>
    intro s n h1 h2 h3
    have hrun : run line s (e :: es) = run line (step line s e) es := rfl
    rw [hrun, ticks_cons]
    by_cases he : e.is_tick = true
    · have hs := step_tick line s e (by omega) he
      rw [if_pos he]
      have := ih (step line s e) (n + 1)
        (by rw [hs.1]; split_ifs <;> omega)
        (by rw [hs.2.1]; split_ifs <;> omega) hs.2.2
      rw [show n + (1 + ticks es) = n + 1 + ticks es by omega]
      exact this
    · have he' : e.is_tick = false := by simpa using he
      have hs := step_no_tick line s e h3 he'
      rw [if_neg he, Nat.zero_add]
      exact ih (step line s e) n (by rw [hs.1]; exact h1) (by rw [hs.2.1]; exact h2) hs.2.2


theorem run_snoc (line : Line) (s : State) (es : List Event) (e : Event) :
    run line s (es ++ [e]) = step line (run line s es) e := by
  unfold run
  rw [List.foldl_append]
  rfl

/-! ## Actuator rule and display schedule -/

/-- C7: after an evaluation that consumes a ready sample the actuator is on
(`RELAY = 0`, active low) exactly when the new `moisture_value` is below 40
and off (`RELAY = 1`) otherwise; two evaluations of the same raw sample give
the same result whatever the rest of the state (previous `moisture_value`,
previous `RELAY`) was; and three successive conversions whose percentages are
39, 41, 39 give on, off, on. -/
theorem relay_on_iff_below_40 (s t u : State) (a b c : Nat × Nat)
    (hs : s.adc_ready ≠ 0) (ht : t.adc_ready ≠ 0) (hsame : s.adc_value = t.adc_value)
    (ha : (feed_sample a u).moisture_value = 39)
    (hb : (feed_sample b (feed_sample a u)).moisture_value = 41)
    (hc : (feed_sample c (feed_sample b (feed_sample a u))).moisture_value = 39) :
    ((Update_Soil_Moisture s).RELAY = 0 ↔ (Update_Soil_Moisture s).moisture_value < 40) ∧
    ((Update_Soil_Moisture s).RELAY = 1 ↔ 40 ≤ (Update_Soil_Moisture s).moisture_value) ∧
    (Update_Soil_Moisture s).RELAY = (Update_Soil_Moisture t).RELAY ∧
    (Update_Soil_Moisture s).moisture_value = (Update_Soil_Moisture t).moisture_value ∧
    (feed_sample a u).RELAY = 0 ∧
    (feed_sample b (feed_sample a u)).RELAY = 1 ∧
    (feed_sample c (feed_sample b (feed_sample a u))).RELAY = 0 := by
  have key : ∀ v : State, v.adc_ready ≠ 0 →
      ((Update_Soil_Moisture v).RELAY = 0 ↔ (Update_Soil_Moisture v).moisture_value < 40) ∧
      ((Update_Soil_Moisture v).RELAY = 1 ↔ 40 ≤ (Update_Soil_Moisture v).moisture_value) := by
    intro v hv
    rw [Update_RELAY v hv, Update_moisture_value v hv]
    split_ifs with h
    · exact ⟨⟨fun _ => h, fun _ => rfl⟩, ⟨fun h1 => absurd h1 (by decide), fun h1 => absurd h (not_lt.mpr h1)⟩⟩
    · exact ⟨⟨fun h1 => absurd h1 (by decide), fun h1 => absurd h1 h⟩, ⟨fun _ => not_lt.mp h, fun _ => rfl⟩⟩
  have fa := key _ (hw_interrupt_adc_ready a.1 a.2 u)
  have fb := key _ (hw_interrupt_adc_ready b.1 b.2 (feed_sample a u))
  have fc := key _ (hw_interrupt_adc_ready c.1 c.2 (feed_sample b (feed_sample a u)))
  refine ⟨(key s hs).1, (key s hs).2, ?_, ?_, ?_, ?_, ?_⟩
  · rw [Update_RELAY s hs, Update_RELAY t ht, hsame]
  · rw [Update_moisture_value s hs, Update_moisture_value t ht, hsame]
  · exact fa.1.mpr (by unfold feed_sample at ha; rw [ha]; decide)
  · exact fb.2.mpr (by unfold feed_sample at hb ⊢; rw [hb]; decide)
  · exact fc.1.mpr (by unfold feed_sample at hc ⊢; rw [hc]; decide)

theorem relay_on_iff_below_40_witness :
    ({ reset with adc_ready := 1, adc_value := 730 } : State).adc_ready ≠ 0 ∧
    ({ reset with adc_ready := 1, adc_value := 730, moisture_value := 80, RELAY := 0 }
      : State).adc_ready ≠ 0 ∧
    ({ reset with adc_ready := 1, adc_value := 730 } : State).adc_value
      = ({ reset with adc_ready := 1, adc_value := 730, moisture_value := 80, RELAY := 0 }
          : State).adc_value ∧
    (feed_sample (2, 218) reset).moisture_value = 39 ∧
    (feed_sample (2, 203) (feed_sample (2, 218) reset)).moisture_value = 41 ∧
    (feed_sample (2, 218) (feed_sample (2, 203) (feed_sample (2, 218) reset))).moisture_value
      = 39 ∧
    (feed_sample (2, 218) reset).RELAY = 0 ∧
    (feed_sample (2, 203) (feed_sample (2, 218) reset)).RELAY = 1 ∧
    (feed_sample (2, 218) (feed_sample (2, 203) (feed_sample (2, 218) reset))).RELAY = 0 :=
  have h := relay_on_iff_below_40 { reset with adc_ready := 1, adc_value := 730 }
    { reset with adc_ready := 1, adc_value := 730, moisture_value := 80, RELAY := 0 } reset
    (2, 218) (2, 203) (2, 218) (by decide) (by decide) (by decide) (by decide) (by decide)
    (by decide)
  ⟨by decide, by decide, by decide, by decide, by decide, by decide,
    h.2.2.2.2.1, h.2.2.2.2.2.1, h.2.2.2.2.2.2⟩

/-- C8: started with `display_timer = 0`, `display_mode = 0` and no pending
timer flag, after any sequence of events (timer ticks, conversion interrupts,
decodes, evaluations, renderings) containing `n` timer ticks,
`display_timer = n mod 5` and `display_mode = (n div 5) mod 2`; the mode is 0
or 1; and one more event changes the mode exactly when it is a timer tick and
brings the number of ticks to a multiple of 5. -/
theorem display_mode_toggles_every_5_ticks (line : Line) (s : State) (es : List Event)
    (htimer : s.display_timer = 0) (hmode : s.display_mode = 0) (hflag : s.TMR1IF = 0) :
    (run line s es).display_timer = ticks es % 5 ∧
    (run line s es).display_mode = (ticks es / 5) % 2 ∧
    ((run line s es).display_mode = 0 ∨ (run line s es).display_mode = 1) ∧
    ∀ e : Event,
      ((run line s (es ++ [e])).display_mode ≠ (run line s es).display_mode ↔
        (e.is_tick = true ∧ (ticks es + 1) % 5 = 0)) := by
  have h := run_display line es s 0 (by rw [htimer]) (by rw [hmode]) hflag
  rw [Nat.zero_add] at h
  refine ⟨h.1, h.2.1, ?_, ?_⟩
  · rw [h.2.1]; omega
  · intro e
    rw [run_snoc]
    by_cases he : e.is_tick = true
    · have hs := step_tick line (run line s es) e (by rw [h.1]; omega) he
      rw [hs.2.1, h.1, h.2.1]
      split_ifs <;> constructor <;> intro hx <;> first | omega | exact ⟨he, by omega⟩
    · have hs := step_no_tick line (run line s es) e h.2.2 (by simpa using he)
      rw [hs.2.1]
      exact ⟨fun hx => absurd rfl hx, fun hx => absurd hx.1 he⟩

theorem display_mode_toggles_every_5_ticks_witness :
    reset.display_timer = 0 ∧ reset.display_mode = 0 ∧ reset.TMR1IF = 0 ∧
    (run (fun _ => false) reset
        [Event.interrupt false true 0 0, Event.evaluate, Event.interrupt true true 2 218,
         Event.render_dht, Event.interrupt false true 0 0, Event.interrupt true false 1 0,
         Event.interrupt false true 0 0, Event.evaluate, Event.interrupt false true 0 0,
         Event.render_soil, Event.interrupt false true 0 0]).display_timer = 1 ∧
    (run (fun _ => false) reset
        [Event.interrupt false true 0 0, Event.evaluate, Event.interrupt true true 2 218,
         Event.render_dht, Event.interrupt false true 0 0, Event.interrupt true false 1 0,
         Event.interrupt false true 0 0, Event.evaluate, Event.interrupt false true 0 0,
         Event.render_soil, Event.interrupt false true 0 0]).display_mode = 1 :=
  have h := display_mode_toggles_every_5_ticks (fun _ => false) reset
    [Event.interrupt false true 0 0, Event.evaluate, Event.interrupt true true 2 218,
     Event.render_dht, Event.interrupt false true 0 0, Event.interrupt true false 1 0,
     Event.interrupt false true 0 0, Event.evaluate, Event.interrupt false true 0 0,
     Event.render_soil, Event.interrupt false true 0 0] rfl rfl rfl
  ⟨rfl, rfl, rfl, h.1, h.2.1⟩

/-! ## Decoder: outcome of one call -/

theorem Read_DHT11_eq (line : Line) (s : State) :
    Read_DHT11 line s = { Read_DHT11_body line (started s) with PEIE := s.PEIE, GIE := s.GIE } :=
  rfl

theorem body_no_response (line : Line) (s : State) (h : (Check_Response line s.polls).1 = 0) :
    Read_DHT11_body line s
      = { s with polls := (Check_Response line s.polls).2, dht_valid_data := 0,
                 dht_error_state := 1 } := by
  unfold Read_DHT11_body
  dsimp only
  rw [if_neg (by rw [h]; decide)]

theorem body_timeout (line : Line) (s : State) (h : (Check_Response line s.polls).1 ≠ 0)
    (ht : (Read_DHT11_payload line { s with polls := (Check_Response line s.polls).2 }).1 ≠ 0) :
    Read_DHT11_body line s
      = { (Read_DHT11_payload line { s with polls := (Check_Response line s.polls).2 }).2 with
          dht_error_state := 2, dht_valid_data := 0 } := by
  unfold Read_DHT11_body
  dsimp only
  rw [if_pos h, if_pos ht]

theorem Check_Response_fail (line : Line) (p : Nat) (h : line p = true ∨ line (p + 1) = false) :
    (Check_Response line p).1 = 0 ∧ (Check_Response line p).2 ≤ p + 2 := by
  unfold Check_Response
  split_ifs <;> simp_all

theorem Check_Response_pass (line : Line) (p : Nat) (h1 : line p = false)
    (h2 : line (p + 1) = true) : Check_Response line p = (1, p + 2) := by
  unfold Check_Response
  rw [if_pos h1, if_pos h2]

/-- C9: if the line is not low at the first handshake sample, or not high at
the second one, `Read_DHT11` ends with `dht_error_state = 1` and
`dht_valid_data = 0`; `Check_Response` returned 0, no payload byte variable
was written and at most the two handshake samples of the line were taken. -/
theorem no_response_when_handshake_absent (line : Line) (s : State)
    (h : line s.polls = true ∨ line (s.polls + 1) = false) :
    (Read_DHT11 line s).dht_error_state = 1 ∧
    (Read_DHT11 line s).dht_valid_data = 0 ∧
    (Check_Response line s.polls).1 = 0 ∧
    payload_bytes (Read_DHT11 line s) = payload_bytes s ∧
    (Read_DHT11 line s).polls ≤ s.polls + 2 := by
  have hc := Check_Response_fail line s.polls h
  have hb := body_no_response line (started s) hc.1
  rw [Read_DHT11_eq, hb]
  exact ⟨rfl, rfl, hc.1, rfl, hc.2⟩

theorem no_response_when_handshake_absent_witness :
    ((fun _ => true : Line) reset.polls = true ∨ (fun _ => true : Line) (reset.polls + 1) = false) ∧
    (Read_DHT11 (fun _ => true) reset).dht_error_state = 1 ∧
    (Read_DHT11 (fun _ => true) reset).dht_valid_data = 0 :=
  have h := no_response_when_handshake_absent (fun _ => true) reset (Or.inl rfl)
  ⟨Or.inl rfl, h.1, h.2.1⟩

theorem payload_ok (line : Line) (s : State) (b0 b1 b2 b3 b4 p2 p3 p4 p5 p6 : Nat)
    (h0 : Read_Data line s.polls = (0, b0, p2)) (h1 : Read_Data line p2 = (0, b1, p3))
    (h2 : Read_Data line p3 = (0, b2, p4)) (h3 : Read_Data line p4 = (0, b3, p5))
    (h4 : Read_Data line p5 = (0, b4, p6)) :
    Read_DHT11_payload line s
      = (0, { s with RH_byte1 := b0, RH_byte2 := b1, T_byte1 := b2, T_byte2 := b3,
                     CheckSum := b4, polls := p6 }) := by
  unfold Read_DHT11_payload read_next
  simp only [h0, h1, h2, h3, h4, if_true]

theorem body_frame (line : Line) (s : State) (b0 b1 b2 b3 b4 p2 p3 p4 p5 p6 : Nat)
    (hlow : line s.polls = false) (hhigh : line (s.polls + 1) = true)
    (h0 : Read_Data line (s.polls + 2) = (0, b0, p2)) (h1 : Read_Data line p2 = (0, b1, p3))
    (h2 : Read_Data line p3 = (0, b2, p4)) (h3 : Read_Data line p4 = (0, b3, p5))
    (h4 : Read_Data line p5 = (0, b4, p6)) :
    Read_DHT11_body line s =
      if b4 = (b0 + b1 + b2 + b3) % 256 then
        { patch_strings { s with RH_byte1 := b0, RH_byte2 := b1, T_byte1 := b2, T_byte2 := b3,
                                 CheckSum := b4, polls := p6 } with
          dht_valid_data := 1, dht_error_state := 0 }
      else
        { s with RH_byte1 := b0, RH_byte2 := b1, T_byte1 := b2, T_byte2 := b3,
                 CheckSum := b4, polls := p6, dht_valid_data := 0, dht_error_state := 3 } := by
  have hp := payload_ok line { s with polls := s.polls + 2 } b0 b1 b2 b3 b4 p2 p3 p4 p5 p6
    h0 h1 h2 h3 h4
  have hm : (b0 + b1 + b2 + b3) &&& 0xFF = (b0 + b1 + b2 + b3) % 256 :=
    Nat.and_pow_two_sub_one_eq_mod _ 8
  unfold Read_DHT11_body
  rw [Check_Response_pass line s.polls hlow hhigh]
  dsimp only
  rw [if_pos (by decide), hp]
  dsimp only
  rw [if_neg (by decide), hm]

theorem char_digit (d : Nat) (h : d < 10) :
    (Char.ofNat ((d + 48) % 256)).isDigit = true ∧
    digit_value (Char.ofNat ((d + 48) % 256)) = d := by
  interval_cases d <;> decide

theorem getD_patch (l : List Char) (a b c d : Char) (i : Nat) (h : 10 < l.length) :
    (((l.set 7 a).set 8 b).set 10 c).getD i d
      = if i = 10 then c else if i = 8 then b else if i = 7 then a else l.getD i d := by
  simp only [List.getD_eq_getElem?_getD, List.getElem?_set, List.length_set]
  by_cases h10 : i = 10
  · subst h10; simp [h]
  · by_cases h8 : i = 8
    · subst h8
      have : 8 < l.length := by omega
      simp [this]
    · by_cases h7 : i = 7
      · subst h7
        have : 7 < l.length := by omega
        simp [this]
      · simp [h10, h8, h7, Ne.symm h10, Ne.symm h8, Ne.symm h7]

theorem Read_DHT11_valid (line : Line) (s : State) (b0 b1 b2 b3 b4 p2 p3 p4 p5 p6 : Nat)
    (hlow : line s.polls = false) (hhigh : line (s.polls + 1) = true)
    (h0 : Read_Data line (s.polls + 2) = (0, b0, p2)) (h1 : Read_Data line p2 = (0, b1, p3))
    (h2 : Read_Data line p3 = (0, b2, p4)) (h3 : Read_Data line p4 = (0, b3, p5))
    (h4 : Read_Data line p5 = (0, b4, p6)) (hsum : b4 = (b0 + b1 + b2 + b3) % 256) :
    (Read_DHT11 line s).dht_valid_data = 1 ∧
    (Read_DHT11 line s).dht_error_state = 0 ∧
    (Read_DHT11 line s).humidity
      = ((s.humidity.set 7 (Char.ofNat ((b0 / 10 + 48) % 256))).set 8
          (Char.ofNat ((b0 % 10 + 48) % 256))).set 10 (Char.ofNat ((b1 / 10 + 48) % 256)) ∧
    (Read_DHT11 line s).temperature
      = ((s.temperature.set 7 (Char.ofNat ((b2 / 10 + 48) % 256))).set 8
          (Char.ofNat ((b2 % 10 + 48) % 256))).set 10 (Char.ofNat ((b3 / 10 + 48) % 256)) := by
  have hb := body_frame line (started s) b0 b1 b2 b3 b4 p2 p3 p4 p5 p6 hlow hhigh h0 h1 h2 h3 h4
  rw [Read_DHT11_eq, hb, if_pos hsum]
  exact ⟨rfl, rfl, rfl, rfl⟩

theorem Read_DHT11_mismatch (line : Line) (s : State) (b0 b1 b2 b3 b4 p2 p3 p4 p5 p6 : Nat)
    (hlow : line s.polls = false) (hhigh : line (s.polls + 1) = true)
    (h0 : Read_Data line (s.polls + 2) = (0, b0, p2)) (h1 : Read_Data line p2 = (0, b1, p3))
    (h2 : Read_Data line p3 = (0, b2, p4)) (h3 : Read_Data line p4 = (0, b3, p5))
    (h4 : Read_Data line p5 = (0, b4, p6)) (hsum : b4 ≠ (b0 + b1 + b2 + b3) % 256) :
    (Read_DHT11 line s).dht_valid_data = 0 ∧
    (Read_DHT11 line s).dht_error_state = 3 ∧
    (Read_DHT11 line s).humidity = s.humidity ∧
    (Read_DHT11 line s).temperature = s.temperature := by
  have hb := body_frame line (started s) b0 b1 b2 b3 b4 p2 p3 p4 p5 p6 hlow hhigh h0 h1 h2 h3 h4
  rw [Read_DHT11_eq, hb, if_neg hsum]
  exact ⟨rfl, rfl, rfl, rfl⟩

theorem line_a_0 : Read_Data line_a 2 = (0, 45, 22) := by
  simp +decide [Read_Data, Read_Data_loop, waitWhile, line_a]

theorem line_a_1 : Read_Data line_a 22 = (0, 5, 40) := by
  simp +decide [Read_Data, Read_Data_loop, waitWhile, line_a]

theorem line_a_2 : Read_Data line_a 40 = (0, 23, 60) := by
  simp +decide [Read_Data, Read_Data_loop, waitWhile, line_a]

theorem line_a_3 : Read_Data line_a 60 = (0, 7, 79) := by
  simp +decide [Read_Data, Read_Data_loop, waitWhile, line_a]

theorem line_a_4 : Read_Data line_a 79 = (0, 80, 97) := by
  simp +decide [Read_Data, Read_Data_loop, waitWhile, line_a]

theorem line_b_0 : Read_Data line_b 2 = (0, 100, 21) := by
  simp +decide [Read_Data, Read_Data_loop, waitWhile, line_b]

theorem line_b_1 : Read_Data line_b 21 = (0, 5, 39) := by
  simp +decide [Read_Data, Read_Data_loop, waitWhile, line_b]

theorem line_b_2 : Read_Data line_b 39 = (0, 0, 55) := by
  simp +decide [Read_Data, Read_Data_loop, waitWhile, line_b]

theorem line_b_3 : Read_Data line_b 55 = (0, 0, 71) := by
  simp +decide [Read_Data, Read_Data_loop, waitWhile, line_b]

theorem line_b_4 : Read_Data line_b 71 = (0, 105, 91) := by
  simp +decide [Read_Data, Read_Data_loop, waitWhile, line_b]

theorem line_c_0 : Read_Data line_c 2 = (0, 200, 21) := by
  simp +decide [Read_Data, Read_Data_loop, waitWhile, line_c]

theorem line_c_1 : Read_Data line_c 21 = (0, 100, 40) := by
  simp +decide [Read_Data, Read_Data_loop, waitWhile, line_c]

theorem line_c_2 : Read_Data line_c 40 = (0, 0, 56) := by
  simp +decide [Read_Data, Read_Data_loop, waitWhile, line_c]

theorem line_c_3 : Read_Data line_c 56 = (0, 0, 72) := by
  simp +decide [Read_Data, Read_Data_loop, waitWhile, line_c]

theorem line_c_4 : Read_Data line_c 72 = (0, 45, 92) := by
  simp +decide [Read_Data, Read_Data_loop, waitWhile, line_c]

/-- C1 (as stated, refuted).  Frame 45, 5, 23, 7 with checksum 80 is decoded
as valid, but the strings read "RH   = 45.0 %" and "Temp = 23.0 C": the
fractional digits shown are 0 and 0, not 5 and 7.  Frame 100, 5, 0, 0 with
checksum 105 is decoded as valid and position 7 of the humidity string
becomes ':', which is not a decimal digit. -/
theorem valid_frame_not_reproduced_exactly :
    (line_a 0 = false ∧ line_a 1 = true ∧ Read_Data line_a 2 = (0, 45, 22) ∧
      Read_Data line_a 22 = (0, 5, 40) ∧ Read_Data line_a 40 = (0, 23, 60) ∧
      Read_Data line_a 60 = (0, 7, 79) ∧ Read_Data line_a 79 = (0, 80, 97) ∧
      80 = (45 + 5 + 23 + 7) % 256 ∧
      (Read_DHT11 line_a reset).dht_valid_data = 1 ∧
      (Read_DHT11 line_a reset).humidity = "RH   = 45.0 %".toList ∧
      (Read_DHT11 line_a reset).temperature = "Temp = 23.0 C".toList ∧
      shown_fraction (Read_DHT11 line_a reset).humidity ≠ 5 ∧
      shown_fraction (Read_DHT11 line_a reset).temperature ≠ 7) ∧
    (line_b 0 = false ∧ line_b 1 = true ∧ Read_Data line_b 2 = (0, 100, 21) ∧
      Read_Data line_b 21 = (0, 5, 39) ∧ Read_Data line_b 39 = (0, 0, 55) ∧
      Read_Data line_b 55 = (0, 0, 71) ∧ Read_Data line_b 71 = (0, 105, 91) ∧
      105 = (100 + 5 + 0 + 0) % 256 ∧
      (Read_DHT11 line_b reset).dht_valid_data = 1 ∧
      (Read_DHT11 line_b reset).humidity = "RH   = :0.0 %".toList ∧
      is_digit_at (Read_DHT11 line_b reset).humidity 7 = false) := by
  have ha := Read_DHT11_valid line_a reset 45 5 23 7 80 22 40 60 79 97 rfl rfl
    line_a_0 line_a_1 line_a_2 line_a_3 line_a_4 rfl
  have hb := Read_DHT11_valid line_b reset 100 5 0 0 105 21 39 55 71 91 rfl rfl
    line_b_0 line_b_1 line_b_2 line_b_3 line_b_4 rfl
  refine ⟨⟨rfl, rfl, line_a_0, line_a_1, line_a_2, line_a_3, line_a_4, rfl, ha.1, ?_, ?_, ?_, ?_⟩,
    ⟨rfl, rfl, line_b_0, line_b_1, line_b_2, line_b_3, line_b_4, rfl, hb.1, ?_, ?_⟩⟩
  · rw [ha.2.2.1]; decide
  · rw [ha.2.2.2]; decide
  · rw [ha.2.2.1]; decide
  · rw [ha.2.2.2]; decide
  · rw [hb.2.2.1]; decide
  · rw [hb.2.2.1]; decide

/-- C1 (amended): for every frame b0..b4 read after a present handshake and
without time-out whose checksum byte is `(b0+b1+b2+b3) mod 256`, `Read_DHT11`
ends with `dht_valid_data = 1` and `dht_error_state = 0`; in both display
strings every character other than positions 7, 8 and 10 is unchanged; when
the integral byte (b0 for humidity, b2 for temperature) is at most 99,
positions 7 and 8 hold its two decimal digits; position 10 holds the tens
digit of the fractional byte (b1 div 10, b3 div 10), a decimal digit when
that byte is at most 99. -/
theorem valid_frame_decoded (line : Line) (s : State)
    (b0 b1 b2 b3 b4 p2 p3 p4 p5 p6 : Nat)
    (hlow : line s.polls = false) (hhigh : line (s.polls + 1) = true)
    (h0 : Read_Data line (s.polls + 2) = (0, b0, p2)) (h1 : Read_Data line p2 = (0, b1, p3))
    (h2 : Read_Data line p3 = (0, b2, p4)) (h3 : Read_Data line p4 = (0, b3, p5))
    (h4 : Read_Data line p5 = (0, b4, p6)) (hsum : b4 = (b0 + b1 + b2 + b3) % 256)
    (hlen_h : 10 < s.humidity.length) (hlen_t : 10 < s.temperature.length) :
    (Read_DHT11 line s).dht_valid_data = 1 ∧
    (Read_DHT11 line s).dht_error_state = 0 ∧
    (∀ i, i ≠ 7 → i ≠ 8 → i ≠ 10 →
      (Read_DHT11 line s).humidity.getD i ' ' = s.humidity.getD i ' ' ∧
      (Read_DHT11 line s).temperature.getD i ' ' = s.temperature.getD i ' ') ∧
    (Read_DHT11 line s).humidity.length = s.humidity.length ∧
    (Read_DHT11 line s).temperature.length = s.temperature.length ∧
    (b0 ≤ 99 → is_digit_at (Read_DHT11 line s).humidity 7 = true ∧
      is_digit_at (Read_DHT11 line s).humidity 8 = true ∧
      shown_integral (Read_DHT11 line s).humidity = b0) ∧
    (b1 ≤ 99 → is_digit_at (Read_DHT11 line s).humidity 10 = true ∧
      shown_fraction (Read_DHT11 line s).humidity = b1 / 10) ∧
    (b2 ≤ 99 → is_digit_at (Read_DHT11 line s).temperature 7 = true ∧
      is_digit_at (Read_DHT11 line s).temperature 8 = true ∧
      shown_integral (Read_DHT11 line s).temperature = b2) ∧
    (b3 ≤ 99 → is_digit_at (Read_DHT11 line s).temperature 10 = true ∧
      shown_fraction (Read_DHT11 line s).temperature = b3 / 10) := by
  have hv := Read_DHT11_valid line s b0 b1 b2 b3 b4 p2 p3 p4 p5 p6 hlow hhigh h0 h1 h2 h3 h4 hsum
  have integral : ∀ (l : List Char) (x y : Nat), 10 < l.length → x ≤ 99 →
      is_digit_at (((l.set 7 (Char.ofNat ((x / 10 + 48) % 256))).set 8
        (Char.ofNat ((x % 10 + 48) % 256))).set 10 (Char.ofNat ((y / 10 + 48) % 256))) 7 = true ∧
      is_digit_at (((l.set 7 (Char.ofNat ((x / 10 + 48) % 256))).set 8
        (Char.ofNat ((x % 10 + 48) % 256))).set 10 (Char.ofNat ((y / 10 + 48) % 256))) 8 = true ∧
      shown_integral (((l.set 7 (Char.ofNat ((x / 10 + 48) % 256))).set 8
        (Char.ofNat ((x % 10 + 48) % 256))).set 10 (Char.ofNat ((y / 10 + 48) % 256))) = x := by
    intro l x y hl hx
    have d1 := char_digit (x / 10) (by omega)
    have d2 := char_digit (x % 10) (by omega)
    unfold is_digit_at shown_integral
    rw [getD_patch _ _ _ _ _ 7 hl, getD_patch _ _ _ _ _ 8 hl]
    simp only [show (7 : Nat) ≠ 10 by decide, show (7 : Nat) ≠ 8 by decide,
      show (8 : Nat) ≠ 10 by decide, if_true, if_false]
    rw [d1.2, d2.2]
    exact ⟨d1.1, d2.1, by omega⟩
  have fraction : ∀ (l : List Char) (x y : Nat), 10 < l.length → y ≤ 99 →
      is_digit_at (((l.set 7 (Char.ofNat ((x / 10 + 48) % 256))).set 8
        (Char.ofNat ((x % 10 + 48) % 256))).set 10 (Char.ofNat ((y / 10 + 48) % 256))) 10 = true ∧
      shown_fraction (((l.set 7 (Char.ofNat ((x / 10 + 48) % 256))).set 8
        (Char.ofNat ((x % 10 + 48) % 256))).set 10 (Char.ofNat ((y / 10 + 48) % 256))) = y / 10 := by
    intro l x y hl hy
    have d1 := char_digit (y / 10) (by omega)
    unfold is_digit_at shown_fraction
    rw [getD_patch _ _ _ _ _ 10 hl]
    simp only [if_true]
    exact ⟨d1.1, d1.2⟩
  refine ⟨hv.1, hv.2.1, ?_, ?_, ?_, ?_, ?_, ?_, ?_⟩
  · intro i i7 i8 i10
    rw [hv.2.2.1, hv.2.2.2, getD_patch _ _ _ _ _ i hlen_h, getD_patch _ _ _ _ _ i hlen_t]
    simp only [i7, i8, i10, if_false, and_self]
  · rw [hv.2.2.1]; simp only [List.length_set]
  · rw [hv.2.2.2]; simp only [List.length_set]
  · intro hb; rw [hv.2.2.1]; exact integral _ _ _ hlen_h hb
  · intro hb; rw [hv.2.2.1]; exact fraction _ _ _ hlen_h hb
  · intro hb; rw [hv.2.2.2]; exact integral _ _ _ hlen_t hb
  · intro hb; rw [hv.2.2.2]; exact fraction _ _ _ hlen_t hb

theorem valid_frame_decoded_witness :
    (line_a reset.polls = false ∧ line_a (reset.polls + 1) = true ∧
     Read_Data line_a (reset.polls + 2) = (0, 45, 22) ∧ Read_Data line_a 22 = (0, 5, 40) ∧
     Read_Data line_a 40 = (0, 23, 60) ∧ Read_Data line_a 60 = (0, 7, 79) ∧
     Read_Data line_a 79 = (0, 80, 97) ∧ 80 = (45 + 5 + 23 + 7) % 256 ∧
     10 < reset.humidity.length ∧ 10 < reset.temperature.length) ∧
    (Read_DHT11 line_a reset).dht_valid_data = 1 ∧
    (Read_DHT11 line_a reset).dht_error_state = 0 ∧
    shown_integral (Read_DHT11 line_a reset).humidity = 45 ∧
    shown_fraction (Read_DHT11 line_a reset).humidity = 5 / 10 ∧
    shown_integral (Read_DHT11 line_a reset).temperature = 23 ∧
    shown_fraction (Read_DHT11 line_a reset).temperature = 7 / 10 :=
  have h := valid_frame_decoded line_a reset 45 5 23 7 80 22 40 60 79 97 rfl rfl
    line_a_0 line_a_1 line_a_2 line_a_3 line_a_4 rfl (by decide) (by decide)
  ⟨⟨rfl, rfl, line_a_0, line_a_1, line_a_2, line_a_3, line_a_4, rfl, by decide, by decide⟩,
    h.1, h.2.1, (h.2.2.2.2.2.1 (by decide)).2.2, (h.2.2.2.2.2.2.1 (by decide)).2,
    (h.2.2.2.2.2.2.2.1 (by decide)).2.2, (h.2.2.2.2.2.2.2.2 (by decide)).2⟩

/-- C2: for every frame b0..b4 read after a present handshake and without
time-out whose checksum byte differs from `(b0+b1+b2+b3) mod 256`,
`Read_DHT11` ends with `dht_error_state = 3` and `dht_valid_data = 0`,
whatever the byte values (sums above 255 included); the display strings are
left as they were. -/
theorem checksum_mismatch_rejected (line : Line) (s : State)
    (b0 b1 b2 b3 b4 p2 p3 p4 p5 p6 : Nat)
    (hlow : line s.polls = false) (hhigh : line (s.polls + 1) = true)
    (h0 : Read_Data line (s.polls + 2) = (0, b0, p2)) (h1 : Read_Data line p2 = (0, b1, p3))
    (h2 : Read_Data line p3 = (0, b2, p4)) (h3 : Read_Data line p4 = (0, b3, p5))
    (h4 : Read_Data line p5 = (0, b4, p6)) (hsum : b4 ≠ (b0 + b1 + b2 + b3) % 256) :
    (Read_DHT11 line s).dht_error_state = 3 ∧
    (Read_DHT11 line s).dht_valid_data = 0 ∧
    (Read_DHT11 line s).humidity = s.humidity ∧
    (Read_DHT11 line s).temperature = s.temperature := by
  have hm := Read_DHT11_mismatch line s b0 b1 b2 b3 b4 p2 p3 p4 p5 p6 hlow hhigh h0 h1 h2 h3 h4
    hsum
  exact ⟨hm.2.1, hm.1, hm.2.2.1, hm.2.2.2⟩

theorem checksum_mismatch_rejected_witness :
    (line_c reset.polls = false ∧ line_c (reset.polls + 1) = true ∧
     Read_Data line_c (reset.polls + 2) = (0, 200, 21) ∧ Read_Data line_c 21 = (0, 100, 40) ∧
     Read_Data line_c 40 = (0, 0, 56) ∧ Read_Data line_c 56 = (0, 0, 72) ∧
     Read_Data line_c 72 = (0, 45, 92) ∧ 45 ≠ (200 + 100 + 0 + 0) % 256) ∧
    (Read_DHT11 line_c reset).dht_error_state = 3 ∧
    (Read_DHT11 line_c reset).dht_valid_data = 0 :=
  have h := checksum_mismatch_rejected line_c reset 200 100 0 0 45 21 40 56 72 92 rfl rfl
    line_c_0 line_c_1 line_c_2 line_c_3 line_c_4 (by decide)
  ⟨⟨rfl, rfl, line_c_0, line_c_1, line_c_2, line_c_3, line_c_4, by decide⟩, h.1, h.2.1⟩


/-! ## Decoder: time-outs -/

theorem waitWhile_exit (level : Bool) (line : Line) :
    ∀ (r t pos : Nat), t + r ≤ 100 → (∀ j, j < r → line (pos + j) = level) →
      line (pos + r) ≠ level → waitWhile level line t pos = (0, t + r, pos + r + 1) := by
  intro r
  induction r with
  | zero =>
    intro t pos _ _ hne
    rw [waitWhile, if_neg (by simpa using hne)]
    rfl
  | succ r ih =>
    intro t pos ht hall hne
    have h0 : line pos = level := hall 0 (by omega)
    have hmod : (t + 1) % 256 = t + 1 := by omega
    rw [waitWhile, if_pos h0]
    simp only [hmod]
    rw [dif_neg (by omega)]
    rw [ih (t + 1) (pos + 1) (by omega)
      (fun j hj => by have := hall (j + 1) (by omega); rwa [show pos + 1 + j = pos + (j + 1) by omega])
      (by rwa [show pos + 1 + r = pos + (r + 1) by omega])]
    rw [show t + 1 + r = t + (r + 1) by omega, show pos + 1 + r + 1 = pos + (r + 1) + 1 by omega]

theorem waitWhile_timeout (level : Bool) (line : Line) :
    ∀ (k t pos : Nat), t + k = 101 → 0 < k → (∀ j, j < k → line (pos + j) = level) →
      waitWhile level line t pos = (1, 101, pos + k) := by
  intro k
  induction k with
  | zero => intro t pos _ hk; omega
  | succ k ih =>
    intro t pos ht _ hall
    have h0 : line pos = level := hall 0 (by omega)
    have hmod : (t + 1) % 256 = t + 1 := by omega
    rw [waitWhile, if_pos h0]
    simp only [hmod]
    by_cases hk : k = 0
    · subst hk
      rw [dif_pos (by omega)]
      rw [show t + 1 = 101 by omega]
    · rw [dif_neg (by omega)]
      rw [ih (t + 1) (pos + 1) (by omega) (by omega)
        (fun j hj => by have := hall (j + 1) (by omega); rwa [show pos + 1 + j = pos + (j + 1) by omega])]
      rw [show pos + 1 + k = pos + (k + 1) by omega]

theorem loop_done (line : Line) (b d q : Nat) (hb : ¬ b < 8) :
    Read_Data_loop line b d q = (0, d, q) := by
  rw [Read_Data_loop, dif_neg hb]

theorem loop_bit (line : Line) (b d q q2 : Nat) (hb : b < 8) (h : bit_read_ok line q q2) :
    ∃ d2, Read_Data_loop line b d q = Read_Data_loop line (b + 1) d2 q2 := by
  obtain ⟨r, hr, hlow, hrise, hrest⟩ := h
  have hw : waitWhile false line 0 q = (0, 0 + r, q + r + 1) :=
    waitWhile_exit false line r 0 q (by omega) hlow (by rw [hrise]; decide)
  have hmod : (b + 1) % 256 = b + 1 := by omega
  rcases hrest with ⟨hs, hq⟩ | ⟨hs, f, hf, hhigh, hfall, hq⟩
  · refine ⟨d, ?_⟩
    rw [Read_Data_loop, dif_pos hb]
    simp only [hw, hmod]
    rw [if_neg (by decide), if_neg (by rw [hs]; decide), hq]
  · have hw2 : waitWhile true line 0 (q + r + 1 + 1) = (0, 0 + f, q + r + 1 + 1 + f + 1) :=
      waitWhile_exit true line f 0 (q + r + 1 + 1) (by omega)
        (fun j hj => by have := hhigh j hj; rwa [show q + r + 1 + 1 + j = q + r + 2 + j by omega])
        (by rw [show q + r + 1 + 1 + f = q + r + 2 + f by omega, hfall]; decide)
    refine ⟨(d ||| (1 <<< (7 - b))) % 256, ?_⟩
    rw [Read_Data_loop, dif_pos hb]
    simp only [hw, hw2, hmod]
    rw [if_neg (by decide), if_pos hs, if_neg (by decide), hq,
      show q + r + 1 + 1 + f + 1 = q + r + f + 3 by omega]

theorem loop_exceeds (line : Line) (b d q : Nat) (hb : b < 8) (h : wait_exceeds line q) :
    (Read_Data_loop line b d q).1 = 1 := by
  rcases h with hlow | ⟨r, hr, hlow, hrise, hs, hhigh⟩
  · have hw : waitWhile false line 0 q = (1, 101, q + 101) :=
      waitWhile_timeout false line 101 0 q (by omega) (by omega) (fun j hj => hlow j (by omega))
    rw [Read_Data_loop, dif_pos hb]
    simp only [hw]
    rfl
  · have hw : waitWhile false line 0 q = (0, 0 + r, q + r + 1) :=
      waitWhile_exit false line r 0 q (by omega) hlow (by rw [hrise]; decide)
    have hw2 : waitWhile true line 0 (q + r + 1 + 1) = (1, 101, q + r + 1 + 1 + 101) :=
      waitWhile_timeout true line 101 0 (q + r + 1 + 1) (by omega) (by omega)
        (fun j hj => by
          have := hhigh j (by omega)
          rwa [show q + r + 1 + 1 + j = q + r + 2 + j by omega])
    rw [Read_Data_loop, dif_pos hb]
    simp only [hw, hw2]
    rw [if_neg (by decide), if_pos hs, if_pos trivial]

theorem loop_bits (line : Line) :
    ∀ (k b d q q2 : Nat), b + k ≤ 8 → bits_read_ok line k q q2 →
      ∃ d2, Read_Data_loop line b d q = Read_Data_loop line (b + k) d2 q2 := by
  intro k
  induction k with
  | zero =>
    intro b d q q2 _ h
    have : q2 = q := h
    subst this
    exact ⟨d, rfl⟩
  | succ k ih =>
    intro b d q q2 hb h
    obtain ⟨m, hbit, hrest⟩ := h
    obtain ⟨d1, h1⟩ := loop_bit line b d q m (by omega) hbit
    obtain ⟨d2, h2⟩ := ih (b + 1) d1 m q2 (by omega) hrest
    exact ⟨d2, by rw [h1, h2, show b + 1 + k = b + (k + 1) by omega]⟩

/-- A byte whose eight bit cells are well formed is read without error. -/
theorem Read_Data_of_bits (line : Line) (q q2 : Nat) (h : bits_read_ok line 8 q q2) :
    ∃ v, Read_Data line q = (0, v, q2) := by
  obtain ⟨d2, h2⟩ := loop_bits line 8 0 0 q q2 (by omega) h
  exact ⟨d2, by unfold Read_Data; rw [h2, loop_done line _ _ _ (by omega)]⟩

/-- A wait that exceeds its bound in any of the eight bits makes `Read_Data`
return 1. -/
theorem Read_Data_of_exceeds (line : Line) (k q q2 : Nat) (hk : k < 8)
    (h : bits_read_ok line k q q2) (hw : wait_exceeds line q2) :
    (Read_Data line q).1 = 1 := by
  obtain ⟨d2, h2⟩ := loop_bits line k 0 0 q q2 (by omega) h
  unfold Read_Data
  rw [h2]
  exact loop_exceeds line _ _ _ (by omega) hw


theorem payload_timeout (line : Line) (s : State) (i q0 : Nat) (hi : i < 5)
    (hbytes : bytes_read_ok line i s.polls q0) (hR : (Read_Data line q0).1 = 1) :
    (Read_DHT11_payload line s).1 = 1 ∧
    (Read_DHT11_payload line s).2.polls = (Read_Data line q0).2.2 ∧
    ∀ j, i < j → j < 5 →
      (payload_bytes (Read_DHT11_payload line s).2).getD j 0 = (payload_bytes s).getD j 0 := by
  interval_cases i
  · have e : q0 = s.polls := hbytes
    subst e
    refine ⟨?_, ?_, ?_⟩
    · simp [Read_DHT11_payload, read_next, hR]
    · simp [Read_DHT11_payload, read_next, hR]
    · intro j hj1 hj2
      interval_cases j <;> simp [Read_DHT11_payload, read_next, hR, payload_bytes]
  · obtain ⟨m1, hb1, e⟩ := hbytes
    have e : q0 = m1 := e
    subst e
    obtain ⟨v1, h1⟩ := Read_Data_of_bits line _ _ hb1
    refine ⟨?_, ?_, ?_⟩
    · simp [Read_DHT11_payload, read_next, hR, h1]
    · simp [Read_DHT11_payload, read_next, hR, h1]
    · intro j hj1 hj2
      interval_cases j <;> simp [Read_DHT11_payload, read_next, hR, h1, payload_bytes]
  · obtain ⟨m1, hb1, m2, hb2, e⟩ := hbytes
    have e : q0 = m2 := e
    subst e
    obtain ⟨v1, h1⟩ := Read_Data_of_bits line _ _ hb1
    obtain ⟨v2, h2⟩ := Read_Data_of_bits line _ _ hb2
    refine ⟨?_, ?_, ?_⟩
    · simp [Read_DHT11_payload, read_next, hR, h1, h2]
    · simp [Read_DHT11_payload, read_next, hR, h1, h2]
    · intro j hj1 hj2
      interval_cases j <;> simp [Read_DHT11_payload, read_next, hR, h1, h2, payload_bytes]
  · obtain ⟨m1, hb1, m2, hb2, m3, hb3, e⟩ := hbytes
    have e : q0 = m3 := e
    subst e
    obtain ⟨v1, h1⟩ := Read_Data_of_bits line _ _ hb1
    obtain ⟨v2, h2⟩ := Read_Data_of_bits line _ _ hb2
    obtain ⟨v3, h3⟩ := Read_Data_of_bits line _ _ hb3
    refine ⟨?_, ?_, ?_⟩
    · simp [Read_DHT11_payload, read_next, hR, h1, h2, h3]
    · simp [Read_DHT11_payload, read_next, hR, h1, h2, h3]
    · intro j hj1 hj2
      interval_cases j
      simp [Read_DHT11_payload, read_next, hR, h1, h2, h3, payload_bytes]
  · obtain ⟨m1, hb1, m2, hb2, m3, hb3, m4, hb4, e⟩ := hbytes
    have e : q0 = m4 := e
    subst e
    obtain ⟨v1, h1⟩ := Read_Data_of_bits line _ _ hb1
    obtain ⟨v2, h2⟩ := Read_Data_of_bits line _ _ hb2
    obtain ⟨v3, h3⟩ := Read_Data_of_bits line _ _ hb3
    obtain ⟨v4, h4⟩ := Read_Data_of_bits line _ _ hb4
    refine ⟨?_, ?_, ?_⟩
    · simp [Read_DHT11_payload, read_next, hR, h1, h2, h3, h4]
    · simp [Read_DHT11_payload, read_next, hR, h1, h2, h3, h4]
    · intro j hj1 hj2
      omega

/-- C10: if the handshake is present and, in some bit of one of the five
bytes (bit `k` of byte `i`, all earlier bytes and bits having been read), a
wait sees more than 100 consecutive unsuccessful polls, then the call of
`Read_Data` for that byte returns 1, `Read_DHT11` stops reading where that
call stopped and leaves the variables of the later bytes untouched, and it
ends with `dht_error_state = 2` and `dht_valid_data = 0`, a state different
from 1 (no response) and 3 (checksum error). -/
theorem timeout_when_wait_exceeds (line : Line) (s : State) (i k q0 q : Nat)
    (hlow : line s.polls = false) (hhigh : line (s.polls + 1) = true)
    (hi : i < 5) (hk : k < 8)
    (hbytes : bytes_read_ok line i (s.polls + 2) q0)
    (hbits : bits_read_ok line k q0 q)
    (hwait : wait_exceeds line q) :
    (Read_Data line q0).1 = 1 ∧
    (Read_DHT11 line s).dht_error_state = 2 ∧
    (Read_DHT11 line s).dht_valid_data = 0 ∧
    (Read_DHT11 line s).dht_error_state ≠ 1 ∧
    (Read_DHT11 line s).dht_error_state ≠ 3 ∧
    (Read_DHT11 line s).polls = (Read_Data line q0).2.2 ∧
    (∀ j, i < j → j < 5 →
      (payload_bytes (Read_DHT11 line s)).getD j 0 = (payload_bytes s).getD j 0) := by
  have hR := Read_Data_of_exceeds line k q0 q hk hbits hwait
  have hc := Check_Response_pass line (started s).polls hlow hhigh
  have hp := payload_timeout line { started s with polls := (Check_Response line (started s).polls).2 }
    i q0 hi (by rw [hc]; exact hbytes) hR
  have hb := body_timeout line (started s) (by rw [hc]; exact Nat.one_ne_zero)
    (by rw [hp.1]; exact Nat.one_ne_zero)
  rw [Read_DHT11_eq, hb]
  exact ⟨hR, rfl, rfl, (by show (2 : Nat) ≠ 1; decide), (by show (2 : Nat) ≠ 3; decide),
    hp.2.1, hp.2.2⟩


theorem line_d_0 : Read_Data line_d 2 = (0, 45, 22) := by
  simp +decide [Read_Data, Read_Data_loop, waitWhile, line_d]

theorem bit_zero_at (line : Line) (q : Nat) (h1 : line q = true) (h2 : line (q + 1) = false) :
    bit_read_ok line q (q + 2) :=
  ⟨0, by omega, fun j hj => absurd hj (Nat.not_lt_zero j), h1, Or.inl ⟨h2, rfl⟩⟩

theorem bit_one_at (line : Line) (q : Nat) (h1 : line q = true) (h2 : line (q + 1) = true)
    (h3 : line (q + 2) = false) : bit_read_ok line q (q + 3) :=
  ⟨0, by omega, fun j hj => absurd hj (Nat.not_lt_zero j), h1,
    Or.inr ⟨h2, 0, by omega, fun j hj => absurd hj (Nat.not_lt_zero j), h3, rfl⟩⟩

theorem line_d_bits : bits_read_ok line_d 8 2 22 :=
  ⟨4, bit_zero_at line_d 2 rfl rfl, 6, bit_zero_at line_d 4 rfl rfl,
    9, bit_one_at line_d 6 rfl rfl rfl, 11, bit_zero_at line_d 9 rfl rfl,
    14, bit_one_at line_d 11 rfl rfl rfl, 17, bit_one_at line_d 14 rfl rfl rfl,
    19, bit_zero_at line_d 17 rfl rfl, 22, bit_one_at line_d 19 rfl rfl rfl, rfl⟩

theorem line_d_silent : wait_exceeds line_d 24 :=
  Or.inl (fun j _ => by
    unfold line_d line_of
    exact List.getD_eq_default _ _ (by
      have : (frame_wave [45] ++ [true, false]).length = 24 := by decide
      omega))

theorem timeout_when_wait_exceeds_witness :
    (line_d reset.polls = false ∧ line_d (reset.polls + 1) = true ∧ 1 < 5 ∧ 1 < 8 ∧
     bytes_read_ok line_d 1 (reset.polls + 2) 22 ∧ bits_read_ok line_d 1 22 24 ∧
     wait_exceeds line_d 24) ∧
    (Read_Data line_d 22).1 = 1 ∧
    (Read_DHT11 line_d reset).dht_error_state = 2 ∧
    (Read_DHT11 line_d reset).dht_valid_data = 0 :=
  have hbytes : bytes_read_ok line_d 1 (reset.polls + 2) 22 := ⟨22, line_d_bits, rfl⟩
  have hbits : bits_read_ok line_d 1 22 24 := ⟨24, bit_zero_at line_d 22 rfl rfl, rfl⟩
  have h := timeout_when_wait_exceeds line_d reset 1 1 22 24 rfl rfl (by decide) (by decide)
    hbytes hbits line_d_silent
  ⟨⟨rfl, rfl, by decide, by decide, hbytes, hbits, line_d_silent⟩, h.1, h.2.1, h.2.2.1⟩

/-! ## Decoder: outcome, interrupt enables and frame -/

/-- C11: whatever the entry state and the line do, `Read_DHT11` returns
either with `dht_valid_data = 1` and `dht_error_state = 0`, or with
`dht_valid_data = 0` and `dht_error_state` equal to 1, 2 or 3; hence
`dht_valid_data = 1` exactly when `dht_error_state = 0`. -/
theorem exactly_one_outcome (line : Line) (s : State) :
    (((Read_DHT11 line s).dht_valid_data = 1 ∧ (Read_DHT11 line s).dht_error_state = 0) ∨
     ((Read_DHT11 line s).dht_valid_data = 0 ∧
      ((Read_DHT11 line s).dht_error_state = 1 ∨ (Read_DHT11 line s).dht_error_state = 2 ∨
       (Read_DHT11 line s).dht_error_state = 3))) ∧
    ((Read_DHT11 line s).dht_valid_data = 1 ↔ (Read_DHT11 line s).dht_error_state = 0) := by
  have h : ((Read_DHT11 line s).dht_valid_data = 1 ∧ (Read_DHT11 line s).dht_error_state = 0) ∨
      ((Read_DHT11 line s).dht_valid_data = 0 ∧
        ((Read_DHT11 line s).dht_error_state = 1 ∨ (Read_DHT11 line s).dht_error_state = 2 ∨
          (Read_DHT11 line s).dht_error_state = 3)) := by
    unfold Read_DHT11 Read_DHT11_body
    dsimp only
    split_ifs
    · exact Or.inr ⟨rfl, Or.inr (Or.inl rfl)⟩
    · exact Or.inl ⟨rfl, rfl⟩
    · exact Or.inr ⟨rfl, Or.inr (Or.inr rfl)⟩
    · exact Or.inr ⟨rfl, Or.inl rfl⟩
  refine ⟨h, ?_⟩
  rcases h with ⟨hv, he⟩ | ⟨hv, he⟩
  · exact ⟨fun _ => he, fun _ => hv⟩
  · constructor
    · intro h1; rw [hv] at h1; exact absurd h1 (by decide)
    · intro h0; rw [h0] at he; rcases he with he | he | he <;> exact absurd he (by decide)

/-- C12: `Read_DHT11` returns with `GIE` and `PEIE` as they were on entry,
on each of its four outcome paths, and `Update_Soil_Moisture`,
`Display_DHT11_Data` and `Display_Soil_Moisture` return with `GIE` as it was
on entry; a call entered with `GIE = 0` returns with `GIE = 0`. -/
theorem interrupt_enables_restored (line : Line) (s : State) :
    (Read_DHT11 line s).GIE = s.GIE ∧
    (Read_DHT11 line s).PEIE = s.PEIE ∧
    (Update_Soil_Moisture s).GIE = s.GIE ∧
    (Display_DHT11_Data s).GIE = s.GIE ∧
    (Display_Soil_Moisture s).GIE = s.GIE ∧
    (s.GIE = 0 →
      (Read_DHT11 line s).GIE = 0 ∧ (Update_Soil_Moisture s).GIE = 0 ∧
      (Display_DHT11_Data s).GIE = 0 ∧ (Display_Soil_Moisture s).GIE = 0) := by
  have h1 : (Read_DHT11 line s).GIE = s.GIE := rfl
  have h2 : (Read_DHT11 line s).PEIE = s.PEIE := rfl
  have h3 : (Update_Soil_Moisture s).GIE = s.GIE := by
    unfold Update_Soil_Moisture
    dsimp only
    split_ifs <;> rfl
  have h4 : (Display_DHT11_Data s).GIE = s.GIE := rfl
  have h5 : (Display_Soil_Moisture s).GIE = s.GIE := rfl
  exact ⟨h1, h2, h3, h4, h5, fun h0 => ⟨h1.trans h0, h3.trans h0, h4.trans h0, h5.trans h0⟩⟩

theorem Read_DHT11_frame (line : Line) (s : State) :
    (Read_DHT11 line s).moisture_value = s.moisture_value ∧
    (Read_DHT11 line s).moisture_text = s.moisture_text ∧
    (Read_DHT11 line s).RELAY = s.RELAY ∧
    (Read_DHT11 line s).adc_value = s.adc_value ∧
    (Read_DHT11 line s).adc_ready = s.adc_ready ∧
    (Read_DHT11 line s).display_timer = s.display_timer ∧
    (Read_DHT11 line s).display_mode = s.display_mode := by
  unfold Read_DHT11 Read_DHT11_body Read_DHT11_payload patch_strings Start_Signal
  dsimp only
  split_ifs <;> exact ⟨rfl, rfl, rfl, rfl, rfl, rfl, rfl⟩

theorem Read_DHT11_strings (line : Line) (s : State)
    (h : (Read_DHT11 line s).dht_error_state ≠ 0) :
    (Read_DHT11 line s).temperature = s.temperature ∧
    (Read_DHT11 line s).humidity = s.humidity := by
  revert h
  unfold Read_DHT11 Read_DHT11_body Read_DHT11_payload Start_Signal
  dsimp only
  split_ifs
  · intro _; exact ⟨rfl, rfl⟩
  · intro h; exact absurd rfl h
  · intro _; exact ⟨rfl, rfl⟩
  · intro _; exact ⟨rfl, rfl⟩

theorem Read_DHT11_line_high : (Read_DHT11 (fun _ => true) reset).dht_error_state = 1 := by
  rw [Read_DHT11_eq, body_no_response (fun _ => true) (started reset)
    (Check_Response_fail (fun _ => true) (started reset).polls (Or.inl rfl)).1]

/-- C18: a decode that ends with an error (state 1, 2 or 3) leaves the two
display strings character for character as they were, and every decode,
successful or not, leaves `moisture_value`, `moisture_text`, `RELAY`,
`adc_value`, `adc_ready`, `display_timer` and `display_mode` unchanged. -/
theorem failed_decode_discards_frame (line : Line) (s : State) (line2 : Line) (t : State)
    (herr : (Read_DHT11 line s).dht_error_state = 1 ∨ (Read_DHT11 line s).dht_error_state = 2 ∨
      (Read_DHT11 line s).dht_error_state = 3) :
    ((Read_DHT11 line s).temperature = s.temperature ∧
     (Read_DHT11 line s).humidity = s.humidity) ∧
    ((Read_DHT11 line2 t).moisture_value = t.moisture_value ∧
     (Read_DHT11 line2 t).moisture_text = t.moisture_text ∧
     (Read_DHT11 line2 t).RELAY = t.RELAY ∧
     (Read_DHT11 line2 t).adc_value = t.adc_value ∧
     (Read_DHT11 line2 t).adc_ready = t.adc_ready ∧
     (Read_DHT11 line2 t).display_timer = t.display_timer ∧
     (Read_DHT11 line2 t).display_mode = t.display_mode) := by
  refine ⟨Read_DHT11_strings line s ?_, Read_DHT11_frame line2 t⟩
  rcases herr with h | h | h <;> rw [h] <;> decide

theorem failed_decode_discards_frame_witness :
    ((Read_DHT11 (fun _ => true) reset).dht_error_state = 1 ∨
      (Read_DHT11 (fun _ => true) reset).dht_error_state = 2 ∨
      (Read_DHT11 (fun _ => true) reset).dht_error_state = 3) ∧
    ((Read_DHT11 (fun _ => true) reset).temperature = reset.temperature ∧
     (Read_DHT11 (fun _ => true) reset).humidity = reset.humidity) ∧
    ((Read_DHT11 line_a reset).moisture_value = reset.moisture_value ∧
     (Read_DHT11 line_a reset).moisture_text = reset.moisture_text ∧
     (Read_DHT11 line_a reset).RELAY = reset.RELAY ∧
     (Read_DHT11 line_a reset).adc_value = reset.adc_value ∧
     (Read_DHT11 line_a reset).adc_ready = reset.adc_ready ∧
     (Read_DHT11 line_a reset).display_timer = reset.display_timer ∧
     (Read_DHT11 line_a reset).display_mode = reset.display_mode) :=
  ⟨Or.inl Read_DHT11_line_high,
    failed_decode_discards_frame (fun _ => true) reset line_a reset (Or.inl Read_DHT11_line_high)⟩

/-! ## Moisture evaluation: formula, threshold and consumption -/

/-- C15: for a raw sample `r` with 278 ≤ r ≤ 1023, `map(r, 1023, 278, 0, 100)`
is `(1023 - r) * 100 / 745` rounded down, which is the truncated C quotient
of the non-positive numerator `(r - 1023) * 100` by -745 and is not negative;
below 278 the result is 100 and above 1023 it is 0. -/
theorem map_is_inverted_linear (r lo hi : Int) (h1 : 278 ≤ r) (h2 : r ≤ 1023)
    (hlo : lo < 278) (hhi : 1023 < hi) :
    map r 1023 278 0 100 = (1023 - r) * 100 / 745 ∧
    Int.tdiv ((r - 1023) * (100 - 0)) (278 - 1023) = (1023 - r) * 100 / 745 ∧
    (r - 1023) * (100 - 0) ≤ 0 ∧
    0 ≤ map r 1023 278 0 100 ∧
    map lo 1023 278 0 100 = 100 ∧
    map hi 1023 278 0 100 = 0 := by
  have e : (r - 1023) * (100 - 0) = -((1023 - r) * 100) := by ring
  refine ⟨?_, ?_, by omega, (map_range r).1, ?_, ?_⟩
  · rw [map_clamped]
    unfold clampRaw
    rw [if_neg (by omega), if_neg (by omega)]
  · rw [e, show (278 - 1023 : Int) = -745 by norm_num, tdiv_neg_neg _ (by omega)]
  · rw [map_clamped]
    unfold clampRaw
    rw [if_pos hlo]
    decide
  · rw [map_clamped]
    unfold clampRaw
    rw [if_neg (by omega), if_pos (by omega)]
    decide

theorem map_is_inverted_linear_witness :
    (278 : Int) ≤ 650 ∧ (650 : Int) ≤ 1023 ∧ (100 : Int) < 278 ∧ (1023 : Int) < 2000 ∧
    map 650 1023 278 0 100 = (1023 - 650) * 100 / 745 ∧
    map 100 1023 278 0 100 = 100 ∧
    map 2000 1023 278 0 100 = 0 :=
  have h := map_is_inverted_linear 650 100 2000 (by decide) (by decide) (by decide) (by decide)
  ⟨by decide, by decide, by decide, by decide, h.1, h.2.2.2.2.1, h.2.2.2.2.2⟩

/-- C19: for a consumed 10-bit raw sample `r` (0..1023) the relay is engaged
(`RELAY = 0`) exactly when `r ≥ 726` and released (`RELAY = 1`) exactly when
`r ≤ 725`. -/
theorem relay_cut_point (s : State) (hready : s.adc_ready ≠ 0) (hr : s.adc_value ≤ 1023) :
    ((Update_Soil_Moisture s).RELAY = 0 ↔ 726 ≤ s.adc_value) ∧
    ((Update_Soil_Moisture s).RELAY = 1 ↔ s.adc_value ≤ 725) := by
  rw [Update_RELAY s hready, map_clamped, toInt16_small (by omega)]
  have hc := clampRaw_range (s.adc_value : Int)
  have hv : clampRaw (s.adc_value : Int)
      = if (s.adc_value : Int) < 278 then 278 else (s.adc_value : Int) := by
    unfold clampRaw
    split_ifs <;> omega
  rw [hv]
  split_ifs with ha hb hb
  · exact ⟨⟨fun _ => by omega, fun _ => rfl⟩, ⟨fun h => absurd h (by decide), fun _ => by omega⟩⟩
  · exact ⟨⟨fun h => absurd h (by decide), fun _ => by omega⟩, ⟨fun _ => by omega, fun _ => rfl⟩⟩
  · exact ⟨⟨fun _ => by omega, fun _ => rfl⟩, ⟨fun h => absurd h (by decide), fun _ => by omega⟩⟩
  · exact ⟨⟨fun h => absurd h (by decide), fun _ => by omega⟩, ⟨fun _ => by omega, fun _ => rfl⟩⟩

theorem relay_cut_point_witness :
    ({ reset with adc_ready := 1, adc_value := 726 } : State).adc_ready ≠ 0 ∧
    ({ reset with adc_ready := 1, adc_value := 726 } : State).adc_value ≤ 1023 ∧
    (Update_Soil_Moisture { reset with adc_ready := 1, adc_value := 726 }).RELAY = 0 :=
  have h := relay_cut_point { reset with adc_ready := 1, adc_value := 726 } (by decide)
    (by decide)
  ⟨by decide, by decide, h.1.mpr (by decide)⟩

theorem Update_eq_critical (s : State) :
    Update_Soil_Moisture s = if s.adc_ready ≠ 0 then Update_critical_section s else s :=
  rfl

theorem Update_irq_nil (s : State) : Update_Soil_Moisture_irq [] s = Update_Soil_Moisture s := by
  unfold Update_Soil_Moisture_irq
  rw [Update_eq_critical]
  have : (if s.GIE ≠ 0 ∧ s.PEIE ≠ 0 then serve [] s else s) = s := by
    split_ifs <;> rfl
  rw [this]

theorem Update_idle (s : State) (h : s.adc_ready = 0) : Update_Soil_Moisture s = s := by
  unfold Update_Soil_Moisture
  rw [if_neg (by rw [h]; exact fun h => h rfl)]

/-- C14 (as stated, refuted): from the reset state with a ready sample 1023
and interrupts enabled, a conversion interrupt posting 278 that is served
after the test of `adc_ready` and before `GIE` is cleared, hence not inside
the critical section, makes the call return `moisture_value = 100`, while
the sample present at entry (1023) maps to 0. -/
theorem sample_replaced_before_critical_section :
    ({ reset with adc_ready := 1 } : State).adc_ready ≠ 0 ∧
    ({ reset with adc_ready := 1 } : State).adc_value = 1023 ∧
    ({ reset with adc_ready := 1 } : State).GIE = 1 ∧
    ({ reset with adc_ready := 1 } : State).PEIE = 1 ∧
    map (toInt16 ({ reset with adc_ready := 1 } : State).adc_value) 1023 278 0 100 = 0 ∧
    (Update_Soil_Moisture_irq [⟨true, false, 1, 22⟩] { reset with adc_ready := 1 }).adc_ready
      = 0 ∧
    (Update_Soil_Moisture_irq [⟨true, false, 1, 22⟩]
      { reset with adc_ready := 1 }).moisture_value = 100 ∧
    (Update_Soil_Moisture_irq [⟨true, false, 1, 22⟩]
      { reset with adc_ready := 1 }).moisture_value
      ≠ map (toInt16 ({ reset with adc_ready := 1 } : State).adc_value) 1023 278 0 100 := by
  decide

/-- C14 (amended): if `adc_ready = 0` on entry, `Update_Soil_Moisture` leaves
the whole state (`moisture_value`, `moisture_text`, `RELAY`, `adc_ready`,
`GIE` included) unchanged; if `adc_ready ≠ 0` on entry and no interrupt is
served between the test of `adc_ready` and the end of the critical section
(none arrives, or `GIE` or `PEIE` is clear on entry), it returns with
`adc_ready = 0` and `moisture_value` computed from the `adc_value` present at
entry, and an immediately repeated call changes nothing. -/
theorem sample_consumed_once (idle busy : State) (irqs : List Irq)
    (hidle : idle.adc_ready = 0) (hbusy : busy.adc_ready ≠ 0) :
    Update_Soil_Moisture_irq irqs idle = idle ∧
    Update_Soil_Moisture idle = idle ∧
    Update_Soil_Moisture_irq [] busy = Update_Soil_Moisture busy ∧
    (busy.GIE = 0 ∨ busy.PEIE = 0 →
      Update_Soil_Moisture_irq irqs busy = Update_Soil_Moisture busy) ∧
    (Update_Soil_Moisture busy).adc_ready = 0 ∧
    (Update_Soil_Moisture busy).moisture_value = map (toInt16 busy.adc_value) 1023 278 0 100 ∧
    Update_Soil_Moisture (Update_Soil_Moisture busy) = Update_Soil_Moisture busy := by
  refine ⟨?_, Update_idle idle hidle, Update_irq_nil busy, ?_, Update_adc_ready busy hbusy,
    Update_moisture_value busy hbusy, Update_idle _ (Update_adc_ready busy hbusy)⟩
  · unfold Update_Soil_Moisture_irq
    rw [if_neg (by rw [hidle]; exact fun h => h rfl)]
  · intro hoff
    have hno : ¬ (busy.GIE ≠ 0 ∧ busy.PEIE ≠ 0) := by
      intro hboth
      rcases hoff with h | h
      · exact hboth.1 h
      · exact hboth.2 h
    unfold Update_Soil_Moisture_irq
    rw [Update_eq_critical, if_pos hbusy, if_pos hbusy, if_neg hno]

theorem sample_consumed_once_witness :
    reset.adc_ready = 0 ∧ ({ reset with adc_ready := 1 } : State).adc_ready ≠ 0 ∧
    Update_Soil_Moisture reset = reset ∧
    (Update_Soil_Moisture { reset with adc_ready := 1 }).adc_ready = 0 ∧
    Update_Soil_Moisture (Update_Soil_Moisture { reset with adc_ready := 1 })
      = Update_Soil_Moisture { reset with adc_ready := 1 } :=
  have h := sample_consumed_once reset { reset with adc_ready := 1 } [⟨true, false, 1, 22⟩]
    rfl (by decide)
  ⟨rfl, by decide, h.2.1, h.2.2.2.2.1, h.2.2.2.2.2.2⟩

/-! ## Main loop: decode cadence and the sensor view -/

theorem loop_to_render_flag (line : Line) (q : IterationIrqs) (c : Nat) (s : State) :
    ((loop_to_render line q c s).1 = true ↔ 10 ≤ (c + 1) % 256) ∧
    (loop_to_render line q c s).2.1 = (if 10 ≤ (c + 1) % 256 then 0 else (c + 1) % 256) := by
  unfold loop_to_render
  dsimp only
  split_ifs with h
  · exact ⟨⟨fun _ => h, fun _ => rfl⟩, rfl⟩
  · exact ⟨⟨fun h1 => absurd h1 (by decide), fun h1 => absurd h1 h⟩, rfl⟩

theorem main_iteration_flag (line : Line) (q : IterationIrqs) (c : Nat) (s : State) :
    (main_iteration line q c s).1 = (loop_to_render line q c s).1 ∧
    (main_iteration line q c s).2.1 = (loop_to_render line q c s).2.1 :=
  ⟨rfl, rfl⟩

theorem main_loop_succ (line : Line) (env : Nat → IterationIrqs) (s0 : State) (n : Nat) :
    main_loop line env s0 (n + 1)
      = ((main_iteration line (env (n + 1)) (main_loop line env s0 n).1
            (main_loop line env s0 n).2).2.1,
         (main_iteration line (env (n + 1)) (main_loop line env s0 n).1
            (main_loop line env s0 n).2).2.2) :=
  rfl

/-- The counter after `n` iterations. -/
theorem main_loop_counter (line : Line) (env : Nat → IterationIrqs) (s0 : State) :
    ∀ n, (main_loop line env s0 n).1 = n % 10 := by
  intro n
  induction n with
  | zero => rfl
  | succ n ih =>
    rw [main_loop_succ]
    show (main_iteration line (env (n + 1)) (main_loop line env s0 n).1
      (main_loop line env s0 n).2).2.1 = (n + 1) % 10
    rw [(main_iteration_flag _ _ _ _).2, (loop_to_render_flag _ _ _ _).2, ih]
    have : (n % 10 + 1) % 256 = n % 10 + 1 := by omega
    rw [this]
    split_ifs <;> omega

theorem loop_bit_sent (line : Line) (b d q q2 : Nat) (bit : Bool) (hb : b < 8)
    (h : bit_sent line q bit q2) :
    Read_Data_loop line b d q
      = Read_Data_loop line (b + 1)
          (if bit = true then (d ||| (1 <<< (7 - b))) % 256 else d) q2 := by
  obtain ⟨r, hr, hlow, hrise, hrest⟩ := h
  have hw : waitWhile false line 0 q = (0, 0 + r, q + r + 1) :=
    waitWhile_exit false line r 0 q (by omega) hlow (by rw [hrise]; decide)
  have hmod : (b + 1) % 256 = b + 1 := by omega
  rcases hrest with ⟨hbit, hs, hq⟩ | ⟨hbit, hs, f, hf, hhigh, hfall, hq⟩
  · subst hbit
    rw [Read_Data_loop, dif_pos hb]
    simp only [hw, hmod]
    rw [if_neg (by decide), if_neg (by rw [hs]; decide), hq, if_neg (by decide)]
  · subst hbit
    have hw2 : waitWhile true line 0 (q + r + 1 + 1) = (0, 0 + f, q + r + 1 + 1 + f + 1) :=
      waitWhile_exit true line f 0 (q + r + 1 + 1) (by omega)
        (fun j hj => by have := hhigh j hj; rwa [show q + r + 1 + 1 + j = q + r + 2 + j by omega])
        (by rw [show q + r + 1 + 1 + f = q + r + 2 + f by omega, hfall]; decide)
    rw [Read_Data_loop, dif_pos hb]
    simp only [hw, hw2, hmod]
    rw [if_neg (by decide), if_pos hs, if_neg (by decide), hq, if_pos trivial,
      show q + r + 1 + 1 + f + 1 = q + r + f + 3 by omega]

/-- Setting or skipping bit `n` turns the bits of `v` above `n` into the bits
of `v` from `n` upwards. -/
theorem msb_step : ∀ v, v < 256 → ∀ n, n < 8 →
    (if v.testBit n = true then ((v / 2 ^ (n + 1) * 2 ^ (n + 1)) ||| (1 <<< n)) % 256
      else v / 2 ^ (n + 1) * 2 ^ (n + 1)) = v / 2 ^ n * 2 ^ n := by
  intro v hv n hn
  interval_cases n <;> interval_cases v <;> rfl

theorem loop_assembles (line : Line) (v : Nat) (hv : v < 256) :
    ∀ (n b d q q2 : Nat), b + n = 8 → d = v / 2 ^ n * 2 ^ n → bits_sent line v n q q2 →
      Read_Data_loop line b d q = (0, v, q2) := by
  intro n
  induction n with
  | zero =>
    intro b d q q2 hb hd h
    have e : q2 = q := h
    rw [loop_done line b d q (by omega), hd, e]
    simp
  | succ n ih =>
    intro b d q q2 hb hd h
    obtain ⟨m, hbit, hrest⟩ := h
    rw [loop_bit_sent line b d q m _ (by omega) hbit]
    apply ih (b + 1) _ m q2 (by omega) _ hrest
    rw [hd, show 7 - b = n by omega]
    exact msb_step v hv n (by omega)

/-- C16: if the line presents the eight bits of a byte value `v`, bit 7
first and bit 0 last, `Read_Data` returns 0 and leaves exactly `v` in its
output byte; in `Read_DHT11` the byte variable receives `v` whatever it held
before. -/
theorem bits_assemble_msb_first (line : Line) (s : State) (v q2 : Nat) (hv : v < 256)
    (h : bits_sent line v 8 s.polls q2) :
    Read_Data line s.polls = (0, v, q2) ∧
    (Read_DHT11_payload line s).2.RH_byte1 = v := by
  have hr : Read_Data line s.polls = (0, v, q2) := by
    unfold Read_Data
    exact loop_assembles line v hv 8 0 0 s.polls q2 rfl (by omega) h
  refine ⟨hr, ?_⟩
  show (Read_Data line s.polls).2.1 = v
  rw [hr]

theorem bit_sent_zero_at (line : Line) (q : Nat) (h1 : line q = true)
    (h2 : line (q + 1) = false) : bit_sent line q false (q + 2) :=
  ⟨0, by omega, fun j hj => absurd hj (Nat.not_lt_zero j), h1, Or.inl ⟨rfl, h2, rfl⟩⟩

theorem bit_sent_one_at (line : Line) (q : Nat) (h1 : line q = true) (h2 : line (q + 1) = true)
    (h3 : line (q + 2) = false) : bit_sent line q true (q + 3) :=
  ⟨0, by omega, fun j hj => absurd hj (Nat.not_lt_zero j), h1,
    Or.inr ⟨rfl, h2, 0, by omega, fun j hj => absurd hj (Nat.not_lt_zero j), h3, rfl⟩⟩

theorem line_a_sends_45 : bits_sent line_a 45 8 2 22 :=
  ⟨4, bit_sent_zero_at line_a 2 rfl rfl, 6, bit_sent_zero_at line_a 4 rfl rfl,
    9, bit_sent_one_at line_a 6 rfl rfl rfl, 11, bit_sent_zero_at line_a 9 rfl rfl,
    14, bit_sent_one_at line_a 11 rfl rfl rfl, 17, bit_sent_one_at line_a 14 rfl rfl rfl,
    19, bit_sent_zero_at line_a 17 rfl rfl, 22, bit_sent_one_at line_a 19 rfl rfl rfl, rfl⟩

theorem bits_assemble_msb_first_witness :
    45 < 256 ∧
    bits_sent line_a 45 8 ({ reset with polls := 2, RH_byte1 := 255 } : State).polls 22 ∧
    Read_Data line_a ({ reset with polls := 2, RH_byte1 := 255 } : State).polls = (0, 45, 22) ∧
    (Read_DHT11_payload line_a { reset with polls := 2, RH_byte1 := 255 }).2.RH_byte1 = 45 :=
  ⟨by decide, line_a_sends_45,
    bits_assemble_msb_first line_a { reset with polls := 2, RH_byte1 := 255 } 45 22 (by decide)
      line_a_sends_45⟩

/-! ## Decoder: bounded polling -/

/-- A wait loop entered with `timeout = t` (at most 100) polls at most
`101 - t` times; `timeout` counts the unsuccessful polls and ends at most
at 101. -/
theorem waitWhile_bound (level : Bool) (line : Line) :
    ∀ (k t pos : Nat), t + k = 101 → 0 < k →
      ((waitWhile level line t pos).1 = 0 ∨ (waitWhile level line t pos).1 = 1) ∧
      t ≤ (waitWhile level line t pos).2.1 ∧
      (waitWhile level line t pos).2.1 ≤ 101 ∧
      pos < (waitWhile level line t pos).2.2 ∧
      (waitWhile level line t pos).2.2 ≤ pos + k ∧
      ((waitWhile level line t pos).1 = 1 →
        (waitWhile level line t pos).2.1 = 101 ∧
        (waitWhile level line t pos).2.2 = pos + ((waitWhile level line t pos).2.1 - t)) ∧
      ((waitWhile level line t pos).1 = 0 →
        (waitWhile level line t pos).2.2 = pos + ((waitWhile level line t pos).2.1 - t) + 1) := by
  intro k
  induction k with
  | zero => intro t pos _ hk; omega
  | succ k ih =>
    intro t pos ht _
    have hmod : (t + 1) % 256 = t + 1 := by omega
    rw [waitWhile]
    by_cases h0 : line pos = level
    · rw [if_pos h0]
      simp only [hmod]
      by_cases hk : k = 0
      · subst hk
        rw [dif_pos (by omega)]
        refine ⟨Or.inr rfl, by show t ≤ t + 1; omega, by show t + 1 ≤ 101; omega,
          by show pos < pos + 1; omega, by show pos + 1 ≤ pos + (0 + 1); omega, ?_, ?_⟩
        · intro _
          exact ⟨by show t + 1 = 101; omega, by show pos + 1 = pos + (t + 1 - t); omega⟩
        · intro h
          exact absurd (show (1 : Nat) = 0 from h) (by decide)
      · rw [dif_neg (by omega)]
        have h := ih (t + 1) (pos + 1) (by omega) (by omega)
        refine ⟨h.1, by omega, h.2.2.1, by omega, by omega, ?_, ?_⟩
        · intro h1
          have := h.2.2.2.2.2.1 h1
          omega
        · intro h1
          have := h.2.2.2.2.2.2 h1
          omega
    · rw [if_neg h0]
      refine ⟨Or.inl rfl, le_refl t, by show t ≤ 101; omega, by show pos < pos + 1; omega,
        by show pos + 1 ≤ pos + (k + 1); omega, ?_, ?_⟩
      · intro h
        exact absurd (show (0 : Nat) = 1 from h) (by decide)
      · intro _
        show pos + 1 = pos + (t - t) + 1
        omega

theorem loop_bound (line : Line) :
    ∀ (n b d pos : Nat), b + n = 8 →
      pos ≤ (Read_Data_loop line b d pos).2.2 ∧
      (Read_Data_loop line b d pos).2.2 ≤ pos + n * 203 := by
  intro n
  induction n with
  | zero =>
    intro b d pos hb
    rw [loop_done line b d pos (by omega)]
    exact ⟨le_refl pos, by show pos ≤ pos + 0 * 203; omega⟩
  | succ n ih =>
    intro b d pos hb
    have hmod : (b + 1) % 256 = b + 1 := by omega
    have hw := waitWhile_bound false line 101 0 pos (by omega) (by omega)
    have hf := waitWhile_bound true line 101 0 ((waitWhile false line 0 pos).2.2 + 1)
      (by omega) (by omega)
    rw [Read_Data_loop, dif_pos (by omega)]
    simp only [hmod]
    split_ifs
    · exact ⟨by show pos ≤ (waitWhile false line 0 pos).2.2; omega,
        by show (waitWhile false line 0 pos).2.2 ≤ pos + (n + 1) * 203; omega⟩
    · exact ⟨by show pos ≤ (waitWhile true line 0 ((waitWhile false line 0 pos).2.2 + 1)).2.2
                omega,
        by show (waitWhile true line 0 ((waitWhile false line 0 pos).2.2 + 1)).2.2
              ≤ pos + (n + 1) * 203
           omega⟩
    · have h := ih (b + 1) ((d ||| 1 <<< (7 - b)) % 256)
        (waitWhile true line 0 ((waitWhile false line 0 pos).2.2 + 1)).2.2 (by omega)
      exact ⟨by omega, by omega⟩
    · have h := ih (b + 1) d ((waitWhile false line 0 pos).2.2 + 1) (by omega)
      exact ⟨by omega, by omega⟩

theorem Read_Data_bound (line : Line) (pos : Nat) :
    pos ≤ (Read_Data line pos).2.2 ∧ (Read_Data line pos).2.2 ≤ pos + 1624 := by
  have h := loop_bound line 8 0 0 pos rfl
  unfold Read_Data
  omega

theorem read_next_bound (line : Line) (e old pos : Nat) :
    pos ≤ (read_next line e old pos).2.2 ∧ (read_next line e old pos).2.2 ≤ pos + 1624 := by
  unfold read_next
  split_ifs
  · exact Read_Data_bound line pos
  · exact ⟨le_refl pos, by show pos ≤ pos + 1624; omega⟩

theorem payload_bound (line : Line) (s : State) :
    s.polls ≤ (Read_DHT11_payload line s).2.polls ∧
    (Read_DHT11_payload line s).2.polls ≤ s.polls + 5 * 1624 := by
  have h1 := Read_Data_bound line s.polls
  have h2 := read_next_bound line (Read_Data line s.polls).1 s.RH_byte2
    (Read_Data line s.polls).2.2
  have h3 := read_next_bound line
    (read_next line (Read_Data line s.polls).1 s.RH_byte2 (Read_Data line s.polls).2.2).1
    s.T_byte1
    (read_next line (Read_Data line s.polls).1 s.RH_byte2 (Read_Data line s.polls).2.2).2.2
  have h4 := read_next_bound line
    (read_next line
      (read_next line (Read_Data line s.polls).1 s.RH_byte2 (Read_Data line s.polls).2.2).1
      s.T_byte1
      (read_next line (Read_Data line s.polls).1 s.RH_byte2 (Read_Data line s.polls).2.2).2.2).1
    s.T_byte2
    (read_next line
      (read_next line (Read_Data line s.polls).1 s.RH_byte2 (Read_Data line s.polls).2.2).1
      s.T_byte1
      (read_next line (Read_Data line s.polls).1 s.RH_byte2 (Read_Data line s.polls).2.2).2.2).2.2
  have h5 := read_next_bound line
    (read_next line
      (read_next line
        (read_next line (Read_Data line s.polls).1 s.RH_byte2 (Read_Data line s.polls).2.2).1
        s.T_byte1
        (read_next line (Read_Data line s.polls).1 s.RH_byte2 (Read_Data line s.polls).2.2).2.2).1
      s.T_byte2
      (read_next line
        (read_next line (Read_Data line s.polls).1 s.RH_byte2 (Read_Data line s.polls).2.2).1
        s.T_byte1
        (read_next line (Read_Data line s.polls).1 s.RH_byte2
          (Read_Data line s.polls).2.2).2.2).2.2).1
    s.CheckSum
    (read_next line
      (read_next line
        (read_next line (Read_Data line s.polls).1 s.RH_byte2 (Read_Data line s.polls).2.2).1
        s.T_byte1
        (read_next line (Read_Data line s.polls).1 s.RH_byte2 (Read_Data line s.polls).2.2).2.2).1
      s.T_byte2
      (read_next line
        (read_next line (Read_Data line s.polls).1 s.RH_byte2 (Read_Data line s.polls).2.2).1
        s.T_byte1
        (read_next line (Read_Data line s.polls).1 s.RH_byte2
          (Read_Data line s.polls).2.2).2.2).2.2).2.2
  unfold Read_DHT11_payload
  dsimp only
  omega

theorem Check_Response_bound (line : Line) (p : Nat) :
    p < (Check_Response line p).2 ∧ (Check_Response line p).2 ≤ p + 2 := by
  unfold Check_Response
  split_ifs <;> exact ⟨by show p < _; omega, by show _ ≤ p + 2; omega⟩

theorem Read_DHT11_polls (line : Line) (s : State) :
    s.polls < (Read_DHT11 line s).polls ∧ (Read_DHT11 line s).polls ≤ s.polls + 2 + 5 * 1624 := by
  have hc := Check_Response_bound line (started s).polls
  have hp := payload_bound line { started s with polls := (Check_Response line (started s).polls).2 }
  have hs : (started s).polls = s.polls := rfl
  have key : (Read_DHT11 line s).polls = (Check_Response line (started s).polls).2 ∨
      (Read_DHT11 line s).polls
        = (Read_DHT11_payload line
            { started s with polls := (Check_Response line (started s).polls).2 }).2.polls := by
    rw [Read_DHT11_eq]
    unfold Read_DHT11_body
    dsimp only
    split_ifs
    · exact Or.inr rfl
    · exact Or.inr rfl
    · exact Or.inr rfl
    · exact Or.inl rfl
  have hp1 : (Check_Response line (started s).polls).2
      ≤ (Read_DHT11_payload line
          { started s with polls := (Check_Response line (started s).polls).2 }).2.polls := hp.1
  have hp2 : (Read_DHT11_payload line
          { started s with polls := (Check_Response line (started s).polls).2 }).2.polls
      ≤ (Check_Response line (started s).polls).2 + 5 * 1624 := hp.2
  rcases key with h | h <;> rw [h] <;> omega

theorem Read_Data_stuck_low (pos : Nat) : Read_Data (fun _ => false) pos = (1, 0, pos + 101) := by
  have hw : waitWhile false (fun _ => false) 0 pos = (1, 101, pos + 101) :=
    waitWhile_timeout false (fun _ => false) 101 0 pos (by omega) (by omega) (fun _ _ => rfl)
  unfold Read_Data
  rw [Read_Data_loop, dif_pos (by omega)]
  simp only [hw]
  rfl

theorem Read_Data_stuck_high (pos : Nat) : Read_Data (fun _ => true) pos = (1, 128, pos + 103) := by
  have hw : waitWhile false (fun _ => true) 0 pos = (0, 0 + 0, pos + 0 + 1) :=
    waitWhile_exit false (fun _ => true) 0 0 pos (by omega)
      (fun j hj => absurd hj (Nat.not_lt_zero j)) (fun h => Bool.noConfusion h)
  have hf : waitWhile true (fun _ => true) 0 (pos + 0 + 1 + 1) = (1, 101, pos + 0 + 1 + 1 + 101) :=
    waitWhile_timeout true (fun _ => true) 101 0 (pos + 0 + 1 + 1) (by omega) (by omega)
      (fun _ _ => rfl)
  unfold Read_Data
  rw [Read_Data_loop, dif_pos (by omega)]
  simp only [hw, hf]
  rw [if_pos trivial, if_pos trivial]
  show (1, 128, pos + 0 + 1 + 1 + 101) = (1, 128, pos + 103)
  rw [show pos + 0 + 1 + 1 + 101 = pos + 103 by omega]

/-- C17: the decoder is a total function of the line behaviour and polls the
line a bounded number of times.  A wait loop makes at most 101 polls; its
8-bit counter equals the number of unsuccessful polls, never exceeds 101 (so
it does not wrap) and is 101 exactly when the time-out code is returned.
One call of `Read_Data` makes at most 8 * (101 + 1 + 101) reads of the line,
and one call of `Read_DHT11` at most 2 + 5 * 8 * (101 + 1 + 101).  On a line
stuck low `Read_Data` returns 1 after 101 reads, on a line stuck high after
103 reads. -/
theorem decoder_polls_bounded (level : Bool) (line : Line) (pos : Nat) (s : State) :
    (waitWhile level line 0 pos).2.2 ≤ pos + 101 ∧
    (waitWhile level line 0 pos).2.1 ≤ 101 ∧
    ((waitWhile level line 0 pos).1 = 1 →
      (waitWhile level line 0 pos).2.1 = 101 ∧
      (waitWhile level line 0 pos).2.2 = pos + (waitWhile level line 0 pos).2.1) ∧
    ((waitWhile level line 0 pos).1 = 0 →
      (waitWhile level line 0 pos).2.2 = pos + (waitWhile level line 0 pos).2.1 + 1) ∧
    ((waitWhile level line 0 pos).1 = 0 ∨ (waitWhile level line 0 pos).1 = 1) ∧
    (Read_Data line pos).2.2 ≤ pos + 8 * (101 + 1 + 101) ∧
    (Read_DHT11 line s).polls ≤ s.polls + 2 + 5 * (8 * (101 + 1 + 101)) ∧
    Read_Data (fun _ => false) pos = (1, 0, pos + 101) ∧
    Read_Data (fun _ => true) pos = (1, 128, pos + 103) := by
  have hw := waitWhile_bound level line 101 0 pos (by omega) (by omega)
  refine ⟨hw.2.2.2.2.1, hw.2.2.1, ?_, ?_, hw.1, (Read_Data_bound line pos).2,
    (Read_DHT11_polls line s).2, Read_Data_stuck_low pos, Read_Data_stuck_high pos⟩
  · intro h
    have := hw.2.2.2.2.2.1 h
    omega
  · intro h
    have := hw.2.2.2.2.2.2 h
    omega

/-! ## Main loop: the decoder runs in every tenth iteration -/

theorem hw_interrupt_polls (adif tmr1if : Bool) (h l : Nat) (s : State) :
    (hw_interrupt adif tmr1if h l s).polls = s.polls := by
  unfold hw_interrupt ISR
  dsimp only
  split_ifs <;> rfl

theorem serve_polls (irqs : List Irq) : ∀ s : State, (serve irqs s).polls = s.polls := by
  induction irqs with
  | nil => intro s; rfl
  | cons i irqs ih =>
    intro s
    have e : serve (i :: irqs) s = serve irqs (hw_interrupt i.adif i.tmr1if i.adresh i.adresl s) :=
      rfl
    rw [e, ih, hw_interrupt_polls]

theorem Update_polls (s : State) : (Update_Soil_Moisture s).polls = s.polls := by
  unfold Update_Soil_Moisture
  dsimp only
  split_ifs <;> rfl

theorem Display_polls (s : State) :
    (Display_DHT11_Data s).polls = s.polls ∧ (Display_Soil_Moisture s).polls = s.polls := by
  unfold Display_DHT11_Data Display_Soil_Moisture
  dsimp only
  split_ifs <;> exact ⟨rfl, rfl⟩

theorem state_at_test_polls (q : IterationIrqs) (s : State) :
    (state_at_test q s).polls = s.polls := by
  unfold state_at_test
  rw [serve_polls, Update_polls, serve_polls]

/-- The state in which the view is chosen: with a decode when the incremented
counter has reached 10, without one otherwise. -/
theorem loop_to_render_state (line : Line) (q : IterationIrqs) (c : Nat) (s : State) :
    (10 ≤ (c + 1) % 256 →
      (loop_to_render line q c s).2.2
        = serve q.before_render (Read_DHT11 line (state_at_test q s))) ∧
    (¬ 10 ≤ (c + 1) % 256 →
      (loop_to_render line q c s).2.2 = serve q.before_render (state_at_test q s)) := by
  unfold loop_to_render state_at_test
  dsimp only
  constructor
  · intro h
    rw [if_pos h]
  · intro h
    rw [if_neg h]

theorem main_iteration_polls (line : Line) (q : IterationIrqs) (c : Nat) (s : State) :
    (main_iteration line q c s).2.2.polls = (loop_to_render line q c s).2.2.polls := by
  have hm : (main_iteration line q c s).2.2
      = serve q.in_delay
          (if (loop_to_render line q c s).2.2.display_mode = 0 then
            Display_DHT11_Data (loop_to_render line q c s).2.2
           else Display_Soil_Moisture (loop_to_render line q c s).2.2) := rfl
  rw [hm, serve_polls]
  have hd := Display_polls (loop_to_render line q c s).2.2
  split_ifs
  · exact hd.1
  · exact hd.2

/-- C13: with `dht_read_counter = 0` before the first iteration, for every
`k ≥ 1` the counter at the start of iteration `k` is `(k - 1) mod 10`, hence
in 0..9 and its increment does not wrap, and the counter is back at 0 after
iteration `k` exactly when `k` is a multiple of 10.  `Read_DHT11` is called
during iteration `k` exactly in that case: when `k` is a multiple of 10 the
state in which the view is chosen is the result of `Read_DHT11` applied to
the state at the test of the counter, and the data line has been read during
the iteration; otherwise that state is reached without any `Read_DHT11` and
the number of reads of the data line is the same before and after the
iteration. -/
theorem decode_every_tenth_iteration (line : Line) (env : Nat → IterationIrqs) (s0 : State)
    (k : Nat) (hk : 1 ≤ k) :
    (main_loop line env s0 (k - 1)).1 = (k - 1) % 10 ∧
    (main_loop line env s0 (k - 1)).1 ≤ 9 ∧
    (main_loop line env s0 (k - 1)).1 + 1 < 256 ∧
    ((main_iteration line (env k) (main_loop line env s0 (k - 1)).1
        (main_loop line env s0 (k - 1)).2).1 = true ↔ k % 10 = 0) ∧
    ((main_loop line env s0 k).1 = 0 ↔ k % 10 = 0) ∧
    (main_loop line env s0 k).1
      = (main_iteration line (env k) (main_loop line env s0 (k - 1)).1
          (main_loop line env s0 (k - 1)).2).2.1 ∧
    (k % 10 = 0 →
      (loop_to_render line (env k) (main_loop line env s0 (k - 1)).1
          (main_loop line env s0 (k - 1)).2).2.2
        = serve (env k).before_render
            (Read_DHT11 line (state_at_test (env k) (main_loop line env s0 (k - 1)).2))) ∧
    (k % 10 ≠ 0 →
      (loop_to_render line (env k) (main_loop line env s0 (k - 1)).1
          (main_loop line env s0 (k - 1)).2).2.2
        = serve (env k).before_render
            (state_at_test (env k) (main_loop line env s0 (k - 1)).2)) ∧
    ((main_loop line env s0 (k - 1)).2.polls < (main_loop line env s0 k).2.polls ↔
      k % 10 = 0) ∧
    (k % 10 ≠ 0 →
      (main_loop line env s0 k).2.polls = (main_loop line env s0 (k - 1)).2.polls) := by
  obtain ⟨n, rfl⟩ : ∃ n, k = n + 1 := ⟨k - 1, by omega⟩
  have hc := main_loop_counter line env s0
  rw [Nat.add_sub_cancel]
  have hst := loop_to_render_state line (env (n + 1)) (main_loop line env s0 n).1
    (main_loop line env s0 n).2
  have hten : 10 ≤ ((main_loop line env s0 n).1 + 1) % 256 ↔ (n + 1) % 10 = 0 := by
    rw [hc n]; omega
  have hp : (main_loop line env s0 (n + 1)).2.polls
      = (loop_to_render line (env (n + 1)) (main_loop line env s0 n).1
          (main_loop line env s0 n).2).2.2.polls := by
    rw [main_loop_succ]
    exact main_iteration_polls _ _ _ _
  have hyes : (n + 1) % 10 = 0 →
      (main_loop line env s0 n).2.polls < (main_loop line env s0 (n + 1)).2.polls := by
    intro h
    rw [hp, hst.1 (hten.mpr h), serve_polls]
    have h1 := (Read_DHT11_polls line
      (state_at_test (env (n + 1)) (main_loop line env s0 n).2)).1
    rw [state_at_test_polls] at h1
    exact h1
  have hno : (n + 1) % 10 ≠ 0 →
      (main_loop line env s0 (n + 1)).2.polls = (main_loop line env s0 n).2.polls := by
    intro h
    rw [hp, hst.2 (fun h10 => h (hten.mp h10)), serve_polls, state_at_test_polls]
  refine ⟨hc n, by rw [hc n]; omega, by rw [hc n]; omega, ?_, by rw [hc (n + 1)], rfl,
    fun h => hst.1 (hten.mpr h), fun h => hst.2 (fun h10 => h (hten.mp h10)), ?_, hno⟩
  · rw [(main_iteration_flag _ _ _ _).1, (loop_to_render_flag _ _ _ _).1, hc n]
    omega
  · constructor
    · intro hlt
      by_contra h
      have := hno h
      omega
    · exact hyes

theorem decode_every_tenth_iteration_witness :
    1 ≤ 10 ∧
    (main_loop line_a (fun _ => ⟨[], [⟨true, false, 2, 218⟩], [], [⟨false, true, 0, 0⟩]⟩)
      reset (10 - 1)).1 = (10 - 1) % 10 ∧
    ((main_iteration line_a
        ((fun _ => ⟨[], [⟨true, false, 2, 218⟩], [], [⟨false, true, 0, 0⟩]⟩ : Nat → IterationIrqs)
          10)
        (main_loop line_a (fun _ => ⟨[], [⟨true, false, 2, 218⟩], [], [⟨false, true, 0, 0⟩]⟩)
          reset (10 - 1)).1
        (main_loop line_a (fun _ => ⟨[], [⟨true, false, 2, 218⟩], [], [⟨false, true, 0, 0⟩]⟩)
          reset (10 - 1)).2).1 = true ↔ 10 % 10 = 0) ∧
    (main_loop line_a (fun _ => ⟨[], [⟨true, false, 2, 218⟩], [], [⟨false, true, 0, 0⟩]⟩)
        reset (10 - 1)).2.polls
      < (main_loop line_a (fun _ => ⟨[], [⟨true, false, 2, 218⟩], [], [⟨false, true, 0, 0⟩]⟩)
          reset 10).2.polls :=
  have h := decode_every_tenth_iteration line_a
    (fun _ => ⟨[], [⟨true, false, 2, 218⟩], [], [⟨false, true, 0, 0⟩]⟩) reset 10 (by decide)
  ⟨by decide, h.1, h.2.2.2.1, h.2.2.2.2.2.2.2.2.1.mpr (by decide)⟩

end SmartIrrigation
